import Mathlib

/-!
# express-recaptcha-rest: the verification middleware

A shallow embedding of `index.js`: the JavaScript values the middleware handles, the request
object, the outbound verification call, and the middleware itself as a function from a request
to the final request together with the trace of effects it performed (calls of `next`, responses
written, the verification call, an uncaught exception).

Conventions of the embedding.

* JavaScript values are the JSON values plus `undefined`. Numbers are modelled by integers: the
  middleware only tests a number for truthiness and compares the status code with 200.
* A record is an association list of its own properties. The reads `req.query[field]` and
  `req.body[field]` find an own property first and otherwise a member the record inherits from
  `Object.prototype`.
* `req.query` and `req.body` are `undefined` or a record, as the query parser and the JSON body
  parser deliver them; `req.get` returns a string or `undefined`.
* The platform function `JSON.parse` and the HTTP client `request` are collaborators of the
  middleware and are passed in as an environment.
* The libraries the module calls (`Joi`, `VError`, `lodash`, `url`, `querystring`) are modelled
  by their documented behaviour on the values the module passes to them.
-/

set_option autoImplicit false

namespace RecaptchaRest

/-! ## JavaScript values -/

/-- A JavaScript value: `undefined`, a JSON value, or a member of `Object.prototype` (a built-in
function such as `toString`, or for `__proto__` the prototype object itself), named by its
property name. -/
inductive JSVal where
  | undefined
  | null
  | bool (b : Bool)
  | num (n : Int)
  | str (s : String)
  | arr (xs : List JSVal)
  | obj (fields : List (String × JSVal))
  | inherited (name : String)

/-- A record: property names with their values. -/
abbrev Fields := List (String × JSVal)

/-- An `Error` object of the platform (a transport error, a `SyntaxError`, a `TypeError`). -/
structure JsError where
  name : String
  message : String

/-- JavaScript truthiness (`ToBoolean`): `undefined`, `null`, `false`, `0` and `''` are falsy;
objects and functions are truthy. -/
def truthy : JSVal → Bool
  | .undefined => false
  | .null => false
  | .bool b => b
  | .num n => n != 0
  | .str s => s != ""
  | .arr _ => true
  | .obj _ => true
  | .inherited _ => true

/-- The operator `a || b`: `a` when it is truthy, `b` otherwise. -/
def jsOr (a b : JSVal) : JSVal := if truthy a then a else b

/-- Own-property lookup `fields[key]` on a record; `undefined` when the key is absent. -/
def lookupField (key : String) : Fields → JSVal
  | [] => .undefined
  | (k, v) :: rest => if k = key then v else lookupField key rest

/-- The property names of `Object.prototype`, which every plain object inherits. -/
def objectPrototypeMembers : List String :=
  ["constructor", "__defineGetter__", "__defineSetter__", "hasOwnProperty", "__lookupGetter__",
    "__lookupSetter__", "isPrototypeOf", "propertyIsEnumerable", "toString", "valueOf",
    "__proto__", "toLocaleString"]

/-- The property read `fields[key]` on a plain object: the own property when there is one,
otherwise the member inherited from `Object.prototype` when `key` names one, otherwise
`undefined`. -/
def readMember (key : String) : Fields → JSVal
  | [] => if objectPrototypeMembers.contains key then .inherited key else .undefined
  | (k, v) :: rest => if k = key then v else readMember key rest

/-- The expression `o && o[key]` for `o` that is `undefined` or a record: `undefined` when `o` is
`undefined`, the property read otherwise. -/
def guardedField (o : Option Fields) (key : String) : JSVal :=
  match o with
  | none => .undefined
  | some fields => readMember key fields

/-- A string-or-`undefined` as a JavaScript value. -/
def ofOptString : Option String → JSVal
  | none => .undefined
  | some s => .str s

/-- The property read `v.key` for the keys the middleware reads on a parsed verification body
(`success`, `error-codes`): a `TypeError` on `null` and `undefined`, own-property lookup on a
record, `undefined` on the other values, none of which has such a property. -/
def getProp (v : JSVal) (key : String) : Except JsError JSVal :=
  match v with
  | .undefined => .error ⟨"TypeError", "Cannot read property " ++ key ++ " of undefined"⟩
  | .null => .error ⟨"TypeError", "Cannot read property " ++ key ++ " of null"⟩
  | .obj fields => .ok (lookupField key fields)
  | _ => .ok .undefined

/-- Strict equality `v === s` of a value with a string. -/
def isStr (s : String) : JSVal → Bool
  | .str t => t == s
  | _ => false

/-- The test `s.indexOf(sub) > -1`: `sub` occurs in `s`. -/
def strIncludes (s sub : String) : Bool := decide (sub.data <:+: s.data)

/-- The function `_.includes(collection, value)` of lodash for a string `value`: membership in an
array, substring test on a string, membership among the values of a record (among its indexed
members when the record is array-like, that is, has a non-negative `length`), and `false` on
everything else. -/
def lodashIncludes (collection : JSVal) (value : String) : Bool :=
  match collection with
  | .arr xs => xs.any (isStr value)
  | .str s => strIncludes s value
  | .obj fields =>
    match lookupField "length" fields with
    | .num (.ofNat n) =>
      if n ≤ 9007199254740991 then
        (List.range n).any (fun i => isStr value (lookupField (toString i) fields))
      else fields.any (fun kv => isStr value kv.2)
    | _ => fields.any (fun kv => isStr value kv.2)
  | _ => false

/-! ## The verification call -/

/-- The characters `querystring.escape` leaves as they are: letters, digits and
`- _ . ! ~ * ' ( )`. -/
def isUnreserved (c : Char) : Bool :=
  c.isAlphanum || [45, 95, 46, 33, 126, 42, 39, 40, 41].contains c.toNat

/-- The UTF-8 encoding of a character, as a list of bytes. -/
def utf8Bytes (c : Char) : List Nat :=
  let v := c.toNat
  if v < 128 then [v]
  else if v < 2048 then [192 + v / 64, 128 + v % 64]
  else if v < 65536 then [224 + v / 4096, 128 + (v / 64) % 64, 128 + v % 64]
  else [240 + v / 262144, 128 + (v / 4096) % 64, 128 + (v / 64) % 64, 128 + v % 64]

/-- The upper-case hexadecimal digit of a number below 16. -/
def hexDigit (n : Nat) : Char :=
  if n < 10 then Char.ofNat (48 + n) else Char.ofNat (55 + n)

/-- The escape `%XX` of one byte. -/
def percentByte (b : Nat) : List Char := [Char.ofNat 37, hexDigit (b / 16), hexDigit (b % 16)]

/-- The function `querystring.escape`: every character that is not unreserved is replaced by the
percent-escapes of its UTF-8 bytes. -/
def escape (s : String) : String :=
  String.mk (s.data.flatMap fun c =>
    if isUnreserved c then [c] else (utf8Bytes c).flatMap percentByte)

/-- The conversion `stringifyPrimitive` of `querystring`: a string is itself, a boolean and a
number are printed, everything else is the empty string. -/
def stringifyPrimitive : JSVal → String
  | .str s => s
  | .bool b => if b then "true" else "false"
  | .num n => toString n
  | _ => ""

/-- The `key=value` pairs one property contributes to a query string: one pair per element for an
array, one pair otherwise. -/
def stringifyField (k : String) : JSVal → List String
  | .arr xs => xs.map fun x => escape k ++ "=" ++ escape (stringifyPrimitive x)
  | v => [escape k ++ "=" ++ escape (stringifyPrimitive v)]

/-- The function `querystring.stringify` on a record: the pairs of its properties joined by `&`. -/
def stringify (query : Fields) : String :=
  "&".intercalate (query.flatMap fun kv => stringifyField kv.1 kv.2)

/-- The function `getUri`. For a service URL without query and fragment, the only kind the
factory passes, `url.parse` followed by `url.format` yields the URL itself followed by `?` and the
query string of `urlObj.query`. -/
def getUri (serviceUrl secret : String) (response remoteip : JSVal) : String :=
  serviceUrl ++ "?" ++
    stringify [("secret", .str secret), ("response", response), ("remoteip", remoteip)]

/-! ## Requests, replies, effects -/

/-- The constant `recaptchaUrl`. -/
def recaptchaUrl : String := "https://www.google.com/recaptcha/api/siteverify"

/-- The options the middleware closes over, as the factory leaves them: `field` and `secret` have
passed the validation of the factory, `url` is the one the factory sets. -/
structure Options where
  field : String
  secret : String
  url : String

/-- The part of the Express request the middleware uses: `req.get`, `req.query`, `req.body`,
`req.ip` and the slot `req.recaptcha` (`undefined` when it was never set). -/
structure Request where
  get : String → Option String
  query : Option Fields
  body : Option Fields
  ip : Option String
  recaptcha : JSVal

/-- What the HTTP client hands to the callback: `err`, `verifyRes.statusCode` and `body`. -/
structure Reply where
  err : Option JsError
  statusCode : Nat
  body : String

/-- The collaborators: `JSON.parse`, which returns a value or throws, and the HTTP client
`request`, which answers a URI with one reply. -/
structure Env where
  jsonParse : String → Except JsError JSVal
  request : String → Reply

/-- An error built by `new VError(...)`, with the property `response` the middleware may set on
it (`undefined` when it does not). -/
structure VError where
  message : String
  cause : Option JsError
  response : JSVal

/-- The constructor `new VError(cause, message)`: the message is followed by `: ` and the message
of the cause, which is kept. -/
def VError.wrap (cause : JsError) (message : String) : VError :=
  { message := message ++ ": " ++ cause.message, cause := some cause, response := .undefined }

/-- The constructor `new VError(message)`, after formatting. -/
def VError.plain (message : String) : VError :=
  { message := message, cause := none, response := .undefined }

/-- One effect of the middleware. -/
inductive Event where
  /-- The call `next()` (no error) or `next(error)`. -/
  | next (error : Option VError)
  /-- The call `res.status(status).send(body)`. -/
  | send (status : Nat) (body : JSVal)
  /-- The call `res.sendStatus(status)`. -/
  | sendStatus (status : Nat)
  /-- The call `request(uri, callback)`. -/
  | request (uri : String)
  /-- An exception that leaves the callback uncaught. -/
  | uncaught (error : JsError)

/-- The request after the middleware has run and the effects performed, in order. -/
structure Result where
  req : Request
  trace : List Event

/-! ## The helpers and the middleware -/

/-- The function `getRecaptchaResponse`:
`req.get(field) || (req.query && req.query[field]) || (req.body && req.body[field])`. -/
def getRecaptchaResponse (field : String) (req : Request) : JSVal :=
  jsOr (jsOr (ofOptString (req.get field)) (guardedField req.query field))
    (guardedField req.body field)

/-- The function `invalidRecaptcha`:
`!verificationRes.success && _.includes(verificationRes['error-codes'], 'invalid-input-response')`.
A property read on `null` or `undefined` throws. -/
def invalidRecaptcha (verificationRes : JSVal) : Except JsError Bool :=
  match getProp verificationRes "success" with
  | .error e => .error e
  | .ok success =>
    if truthy success then .ok false
    else
      match getProp verificationRes "error-codes" with
      | .error e => .error e
      | .ok codes => .ok (lodashIncludes codes "invalid-input-response")

/-- The function `invalidRequest`:
`!verificationRes.success && !_.includes(verificationRes['error-codes'], 'invalid-input-response')`.
A property read on `null` or `undefined` throws. -/
def invalidRequest (verificationRes : JSVal) : Except JsError Bool :=
  match getProp verificationRes "success" with
  | .error e => .error e
  | .ok success =>
    if truthy success then .ok false
    else
      match getProp verificationRes "error-codes" with
      | .error e => .error e
      | .ok codes => .ok (!lodashIncludes codes "invalid-input-response")

/-- The test `v === false`. -/
def isFalse : JSVal → Bool
  | .bool false => true
  | _ => false

/-- The body `{ status: 400, message: ... }` of the rejection of a request without token. -/
def missingTokenBody : JSVal :=
  .obj [("status", .num 400), ("message", .str "Request has to include recaptcha response.")]

/-- The error of the status branch: the formatted message and
`error.response = { statusCode: ..., body: body }`. -/
def statusError (statusCode : Nat) (body : String) : VError :=
  { VError.plain ("verification request returned status " ++ toString statusCode) with
    response := .obj [("statusCode", .num statusCode), ("body", .str body)] }

/-- The error of the classification branch: `error.response = req.recaptcha`. -/
def badRequestError (parsed : JSVal) : VError :=
  { VError.plain "bad verification request" with response := parsed }

/-- The callback the middleware passes to `request`, run on the reply `(err, verifyRes, body)`. -/
def callback (jsonParse : String → Except JsError JSVal) (req : Request) (reply : Reply) :
    Result :=
  match reply.err with
  | some err => ⟨req, [.next (some (VError.wrap err "verification request failed"))]⟩
  | none =>
    if reply.statusCode ≠ 200 then
      ⟨req, [.next (some (statusError reply.statusCode reply.body))]⟩
    else
      match jsonParse reply.body with
      | .error e =>
        ⟨req, [.next (some (VError.wrap e "parsing body of verification response failed"))]⟩
      | .ok parsed =>
        let req := { req with recaptcha := parsed }
        match invalidRequest req.recaptcha with
        | .error e => ⟨req, [.uncaught e]⟩
        | .ok true => ⟨req, [.next (some (badRequestError req.recaptcha))]⟩
        | .ok false =>
          match invalidRecaptcha req.recaptcha with
          | .error e => ⟨req, [.uncaught e]⟩
          | .ok true => ⟨req, [.sendStatus 422]⟩
          | .ok false => ⟨req, [.next none]⟩

/-- The middleware function the factory returns, for the options it closes over. -/
def middleware (options : Options) (env : Env) (req : Request) : Result :=
  if isFalse req.recaptcha then ⟨req, [.next none]⟩
  else
    let recaptchaResponse := getRecaptchaResponse options.field req
    if !truthy recaptchaResponse then ⟨req, [.send 400 missingTokenBody]⟩
    else
      let uri := getUri options.url options.secret recaptchaResponse (ofOptString req.ip)
      let result := callback env.jsonParse req (env.request uri)
      ⟨result.req, .request uri :: result.trace⟩

/-! ## The factory

The factory validates its argument with `Joi.attempt(options, optionsSchema)`. The rules of Joi
the schema relies on: `Joi.string()` accepts a string that is not empty and nothing else; a key
whose value is `undefined` counts as missing; `.default(v)` puts `v` for a missing key and
`.required()` rejects a missing key; an object schema rejects keys it does not list; an object
schema that is not required accepts `undefined` and returns it. The `options` argument is
`undefined` or a record. -/

/-- The secret the factory substitutes for `test_secret`. -/
def testSecret : String := "6LeIxAcTAAAAAGG-vFI1TnRWxMZNFuojJ4WifJWe"

/-- The rule `Joi.string()` on a value that is present, for the key `key`. -/
def joiString (key : String) : JSVal → Except JsError String
  | .str s =>
    if s = "" then .error ⟨"ValidationError", "\"" ++ key ++ "\" is not allowed to be empty"⟩
    else .ok s
  | _ => .error ⟨"ValidationError", "\"" ++ key ++ "\" must be a string"⟩

/-- The rule `Joi.string().default(value)`: the default for a missing key. -/
def joiStringDefault (key default : String) : JSVal → Except JsError String
  | .undefined => .ok default
  | v => joiString key v

/-- The rule `Joi.string().required()`: a missing key is rejected. -/
def joiStringRequired (key : String) : JSVal → Except JsError String
  | .undefined => .error ⟨"ValidationError", "\"" ++ key ++ "\" is required"⟩
  | v => joiString key v

/-- The options after validation: `field` and `secret`. -/
structure ValidOptions where
  field : String
  secret : String

/-- The schema `optionsSchema` applied to a record:
`{ field: Joi.string().default('g-recaptcha-response'), secret: Joi.string().required() }`, no
other keys allowed. -/
def optionsSchema (value : Fields) : Except JsError ValidOptions :=
  match joiStringDefault "field" "g-recaptcha-response" (lookupField "field" value) with
  | .error e => .error e
  | .ok field =>
    match joiStringRequired "secret" (lookupField "secret" value) with
    | .error e => .error e
    | .ok secret =>
      match value.find? (fun kv => kv.1 != "field" && kv.1 != "secret") with
      | some kv => .error ⟨"ValidationError", "\"" ++ kv.1 ++ "\" is not allowed"⟩
      | none => .ok { field := field, secret := secret }

/-- The factory `module.exports`, up to the options its middleware closes over: the validated
options with `url` set to `recaptchaUrl` and `test_secret` replaced by the test secret; an error
when the factory throws. On `undefined` the validation returns `undefined` and the assignment
`options.url = recaptchaUrl` throws. The middleware returned is `middleware` on these options. -/
def factory (options : Option Fields) : Except JsError Options :=
  match options with
  | none => .error ⟨"TypeError", "Cannot set property url of undefined"⟩
  | some value =>
    match optionsSchema value with
    | .error e => .error e
    | .ok validated =>
      .ok { field := validated.field
            secret := if validated.secret = "test_secret" then testSecret else validated.secret
            url := recaptchaUrl }

/-! ## Reading a trace -/

/-- An event is a dispatch when it is a call of `next` or a response. -/
def Event.isDispatch : Event → Bool
  | .next _ => true
  | .send _ _ => true
  | .sendStatus _ => true
  | .request _ => false
  | .uncaught _ => false

/-- The dispatches of a trace, in order. -/
def dispatches (trace : List Event) : List Event := trace.filter Event.isDispatch

/-- An event is a verification call. -/
def Event.isRequest : Event → Bool
  | .request _ => true
  | _ => false

/-- An event is a call of `next`. -/
def Event.isNext : Event → Bool
  | .next _ => true
  | _ => false

/-- An event writes a response. -/
def Event.isResponse : Event → Bool
  | .send _ _ => true
  | .sendStatus _ => true
  | _ => false

/-- The URIs of the verification calls of a trace, in order. -/
def verifierCalls : List Event → List String
  | [] => []
  | .request uri :: rest => uri :: verifierCalls rest
  | _ :: rest => verifierCalls rest

/-- The URI of the verification call the middleware issues for a request that carries a token. -/
def verificationUri (options : Options) (req : Request) : String :=
  getUri options.url options.secret (getRecaptchaResponse options.field req) (ofOptString req.ip)

/-- The precedence rule in the words of the specification: the header's value when it is
non-empty, otherwise the query parameter's value when that is non-empty, otherwise the body
field's value. -/
def tokenByPrecedence (header query body : JSVal) : JSVal :=
  if truthy header then header else if truthy query then query else body

/-- What a request part (`req.query` or `req.body`) carries under a key, in the words of the
specification: the value of its own parameter or field of that name, `undefined` when it has
none. -/
def carriedField (o : Option Fields) (key : String) : JSVal :=
  match o with
  | none => .undefined
  | some fields => lookupField key fields

/-! ## Concrete inputs

The collaborators and requests of the test suite (`test/spec.js`), used to evaluate the
middleware at concrete inputs. -/

/-- The helper `getResponseMock(err, statusCode, body)` of the test suite: an HTTP client that
answers every URI with `(err || null, { statusCode: statusCode || 200 },
body || JSON.stringify({ success: true }))`. -/
def getResponseMock (err : Option JsError) (statusCode : Option Nat) (body : Option String) :
    String → Reply :=
  fun _ =>
    { err := err
      statusCode := match statusCode with
        | some n => if n = 0 then 200 else n
        | none => 200
      body := match body with
        | some b => if b = "" then "\x7b\"success\":true\x7d" else b
        | none => "\x7b\"success\":true\x7d" }

/-- The values `JSON.parse` returns on the bodies the test suite sends and on `null`; on the
string `not` of the test suite, and on every string not listed, a `SyntaxError`. -/
def sampleParse (body : String) : Except JsError JSVal :=
  if body = "null" then .ok .null
  else if body = "\x7b\"success\":true\x7d" then .ok (.obj [("success", .bool true)])
  else if body = "\x7b\"success\":false,\"error-codes\":[\"invalid-input-response\"]\x7d" then
    .ok (.obj [("success", .bool false), ("error-codes", .arr [.str "invalid-input-response"])])
  else if body = "\x7b\"success\":false,\"error-codes\":[\"missing-input-secret\"]\x7d" then
    .ok (.obj [("success", .bool false), ("error-codes", .arr [.str "missing-input-secret"])])
  else .error ⟨"SyntaxError", "Unexpected token"⟩

/-- The environment of a test: the sample `JSON.parse` and a mocked HTTP client. -/
def sampleEnv (client : String → Reply) : Env := { jsonParse := sampleParse, request := client }

/-- The options of the test `should use api secret in options.secret`, as the factory leaves
them. -/
def sampleOptions : Options :=
  { field := "g-recaptcha-response", secret := "mySecret", url := recaptchaUrl }

/-- A request with the given header, query and body values under `g-recaptcha-response` (each
absent when `none`), coming from `::1`, with the given `req.recaptcha`. -/
def sampleRequest (header query body : Option String) (recaptcha : JSVal) : Request :=
  { get := fun name => if name = "g-recaptcha-response" then header else none
    query := some (match query with
      | some q => [("g-recaptcha-response", .str q)]
      | none => [])
    body := some (match body with
      | some b => [("g-recaptcha-response", .str b)]
      | none => [])
    ip := some "::1"
    recaptcha := recaptcha }

/-- A request `GET /` that carries no token: no header, an empty query, an empty parsed body. -/
def tokenlessRequest : Request :=
  { get := fun _ => none
    query := some []
    body := some []
    ip := some "::1"
    recaptcha := .undefined }

/-- The options the factory returns for `{ secret: 'mySecret', field: 'toString' }`. -/
def toStringOptions : Options :=
  { field := "toString", secret := "mySecret", url := recaptchaUrl }

/-! ## Definitions for comparison -/

/-- The callback with the two classification tests in the opposite order: `invalidRecaptcha`
first, `invalidRequest` second. Everything else is the callback of the middleware. -/
def callbackRecaptchaFirst (jsonParse : String → Except JsError JSVal) (req : Request)
    (reply : Reply) : Result :=
  match reply.err with
  | some err => ⟨req, [.next (some (VError.wrap err "verification request failed"))]⟩
  | none =>
    if reply.statusCode ≠ 200 then
      ⟨req, [.next (some (statusError reply.statusCode reply.body))]⟩
    else
      match jsonParse reply.body with
      | .error e =>
        ⟨req, [.next (some (VError.wrap e "parsing body of verification response failed"))]⟩
      | .ok parsed =>
        let req := { req with recaptcha := parsed }
        match invalidRecaptcha req.recaptcha with
        | .error e => ⟨req, [.uncaught e]⟩
        | .ok true => ⟨req, [.sendStatus 422]⟩
        | .ok false =>
          match invalidRequest req.recaptcha with
          | .error e => ⟨req, [.uncaught e]⟩
          | .ok true => ⟨req, [.next (some (badRequestError req.recaptcha))]⟩
          | .ok false => ⟨req, [.next none]⟩

/-! ## Decoding a query string

The verifier's side of the verification call: how the parameters of a query string are read
back. Used to state what `getUri` sends. -/

/-- The value of a hexadecimal digit, upper or lower case. -/
def hexVal (c : Char) : Option Nat :=
  let v := c.toNat
  if 48 ≤ v ∧ v ≤ 57 then some (v - 48)
  else if 65 ≤ v ∧ v ≤ 70 then some (v - 55)
  else if 97 ≤ v ∧ v ≤ 102 then some (v - 87)
  else none

/-- Percent-decoding to bytes: `%XY` is the byte with the hexadecimal digits `X` and `Y`, any
other character stands for its UTF-8 bytes; `none` on a `%` not followed by two digits. -/
def percentDecode : List Char → Option (List Nat)
  | [] => some []
  | c :: rest =>
    if c.toNat = 37 then
      match rest with
      | a :: b :: rest2 =>
        match hexVal a, hexVal b, percentDecode rest2 with
        | some x, some y, some bytes => some ((16 * x + y) :: bytes)
        | _, _, _ => none
      | _ => none
    else (percentDecode rest).map (utf8Bytes c ++ ·)

/-- A continuation byte of UTF-8. -/
def isContinuation (b : Nat) : Bool := 128 ≤ b && b < 192

/-- UTF-8 decoding, byte by byte: `pending` holds the bits read so far of the character being
decoded and `need` the number of continuation bytes it still lacks. -/
def utf8DecodeFrom : Nat → Nat → List Nat → Option (List Char)
  | _, 0, [] => some []
  | _, _ + 1, [] => none
  | _, 0, b :: rest =>
    if b < 128 then (utf8DecodeFrom 0 0 rest).map (Char.ofNat b :: ·)
    else if b < 192 then none
    else if b < 224 then utf8DecodeFrom (b - 192) 1 rest
    else if b < 240 then utf8DecodeFrom (b - 224) 2 rest
    else utf8DecodeFrom (b - 240) 3 rest
  | pending, need + 1, b :: rest =>
    if isContinuation b then
      if need = 0 then
        (utf8DecodeFrom 0 0 rest).map (Char.ofNat (pending * 64 + (b - 128)) :: ·)
      else utf8DecodeFrom (pending * 64 + (b - 128)) need rest
    else none

/-- UTF-8 decoding of a list of bytes; `none` on a malformed sequence. -/
def utf8Decode (bytes : List Nat) : Option (List Char) := utf8DecodeFrom 0 0 bytes

/-- URL decoding of a string (the inverse of `querystring.escape`): percent-decoding followed by
UTF-8 decoding. -/
def unescapeChars (cs : List Char) : Option String :=
  match percentDecode cs with
  | none => none
  | some bytes => (utf8Decode bytes).map String.mk

/-- Decoding of the pieces of a query string: each piece is `key=value`, both URL-decoded. -/
def decodePairs : List (List Char) → Option (List (String × String))
  | [] => some []
  | piece :: rest =>
    match piece.splitOn '=' with
    | [k, v] =>
      match unescapeChars k, unescapeChars v, decodePairs rest with
      | some key, some value, some pairs => some ((key, value) :: pairs)
      | _, _, _ => none
    | _ => none

/-- Decoding of a query string: the parameters, in order, with their decoded names and values. -/
def decodeQuery (query : String) : Option (List (String × String)) :=
  decodePairs (query.data.splitOn '&')

/-! ## Auxiliary lemmas -/

/-- For a key that is not the name of a member of `Object.prototype`, the read `o && o[key]`
yields what `o` carries under the key. -/
theorem guardedField_of_not_inherited (o : Option Fields) (key : String)
    (hkey : objectPrototypeMembers.contains key = false) :
    guardedField o key = carriedField o key := by
  cases o with
  | none => rfl
  | some fields =>
    show readMember key fields = lookupField key fields
    induction fields with
    | nil => simp only [readMember, lookupField, hkey, Bool.false_eq_true, if_false]
    | cons kv rest ih =>
      obtain ⟨k, v⟩ := kv
      simp only [readMember, lookupField, ih]

theorem isFalse_eq_false {v : JSVal} (h : v ≠ .bool false) : isFalse v = false := by
  cases v with
  | bool b => cases b <;> simp_all [isFalse]
  | _ => rfl

theorem truthy_str {s : String} (h : s ≠ "") : truthy (.str s) = true := by
  simp [truthy, h]

theorem any_isStr_of_mem {s : String} {xs : List JSVal} (h : JSVal.str s ∈ xs) :
    xs.any (isStr s) = true := by
  rw [List.any_eq_true]
  exact ⟨_, h, by simp [isStr]⟩

theorem any_isStr_of_not_mem {s : String} {xs : List JSVal} (h : JSVal.str s ∉ xs) :
    xs.any (isStr s) = false := by
  rw [List.any_eq_false]
  intro x hx hs
  cases x with
  | str t =>
    have : t = s := by simpa [isStr] using hs
    exact h (this ▸ hx)
  | _ => simp [isStr] at hs

/-- A request that is not bypassed and carries a token reaches the verification call, and the
rest of the run is the callback on the reply. -/
theorem middleware_of_token (options : Options) (env : Env) (req : Request)
    (hbypass : req.recaptcha ≠ .bool false)
    (htoken : truthy (getRecaptchaResponse options.field req) = true) :
    middleware options env req =
      ⟨(callback env.jsonParse req (env.request (verificationUri options req))).req,
        .request (verificationUri options req) ::
          (callback env.jsonParse req (env.request (verificationUri options req))).trace⟩ := by
  simp [middleware, isFalse_eq_false hbypass, htoken, verificationUri]

/-- The callback performs exactly one effect, and it is not a verification call. -/
theorem callback_trace (jsonParse : String → Except JsError JSVal) (req : Request)
    (reply : Reply) :
    ∃ e, (callback jsonParse req reply).trace = [e] ∧ e.isRequest = false := by
  unfold callback
  split
  · exact ⟨_, rfl, rfl⟩
  · split
    · exact ⟨_, rfl, rfl⟩
    · split
      · exact ⟨_, rfl, rfl⟩
      · dsimp only
        split
        · exact ⟨_, rfl, rfl⟩
        · exact ⟨_, rfl, rfl⟩
        · split <;> exact ⟨_, rfl, rfl⟩

theorem verifierCalls_callback (jsonParse : String → Except JsError JSVal) (req : Request)
    (reply : Reply) : verifierCalls (callback jsonParse req reply).trace = [] := by
  obtain ⟨e, he, hr⟩ := callback_trace jsonParse req reply
  rw [he]
  cases e <;> simp_all [verifierCalls, Event.isRequest]

/-- A string occurs in itself followed by anything. -/
theorem strIncludes_append (s t : String) : strIncludes (s ++ t) s = true := by
  simp only [strIncludes, String.data_append, decide_eq_true_eq]
  exact (List.prefix_append _ _).isInfix

/-! ## Token extraction -/

/-- Precedence among the three reads. For every field name and every request,
`getRecaptchaResponse` returns the header's value when that is non-empty, otherwise what the read
`req.query[field]` yields when that is truthy, otherwise what the read `req.body[field]` yields.
In particular, for a request that is not bypassed: with a non-empty header token the
verification call is made with the header's token, whatever query and body hold; with the header
absent and a non-empty string read from the query it is made with that string; with the header
absent, `undefined` read from the query and a non-empty string read from the body it is made with
that string. For a field that is not the name of a member of `Object.prototype` the reads yield
what query and body carry (`guardedField_of_not_inherited`). -/
theorem getRecaptchaResponse_precedence (options : Options) (env : Env) (req : Request) :
    getRecaptchaResponse options.field req =
        tokenByPrecedence (ofOptString (req.get options.field))
          (guardedField req.query options.field) (guardedField req.body options.field) ∧
    (∀ h : String, req.get options.field = some h → h ≠ "" →
      getRecaptchaResponse options.field req = .str h ∧
      (req.recaptcha ≠ .bool false →
        verifierCalls (middleware options env req).trace =
          [getUri options.url options.secret (.str h) (ofOptString req.ip)])) ∧
    (∀ q : String, req.get options.field = none →
      guardedField req.query options.field = .str q → q ≠ "" →
      getRecaptchaResponse options.field req = .str q ∧
      (req.recaptcha ≠ .bool false →
        verifierCalls (middleware options env req).trace =
          [getUri options.url options.secret (.str q) (ofOptString req.ip)])) ∧
    (∀ b : String, req.get options.field = none →
      guardedField req.query options.field = .undefined →
      guardedField req.body options.field = .str b → b ≠ "" →
      getRecaptchaResponse options.field req = .str b ∧
      (req.recaptcha ≠ .bool false →
        verifierCalls (middleware options env req).trace =
          [getUri options.url options.secret (.str b) (ofOptString req.ip)])) := by
  have calls : ∀ t : String, t ≠ "" → getRecaptchaResponse options.field req = .str t →
      req.recaptcha ≠ .bool false →
      verifierCalls (middleware options env req).trace =
        [getUri options.url options.secret (.str t) (ofOptString req.ip)] := by
    intro t ht heq hbypass
    have htoken : truthy (getRecaptchaResponse options.field req) = true := by
      rw [heq]; exact truthy_str ht
    rw [middleware_of_token options env req hbypass htoken]
    simp only [verifierCalls, verifierCalls_callback, verificationUri, heq]
  refine ⟨?_, ?_, ?_, ?_⟩
  · unfold getRecaptchaResponse jsOr tokenByPrecedence
    cases hh : truthy (ofOptString (req.get options.field)) <;>
      cases hq : truthy (guardedField req.query options.field) <;> simp [hh, hq]
  · intro h hget hne
    have heq : getRecaptchaResponse options.field req = .str h := by
      simp [getRecaptchaResponse, jsOr, hget, ofOptString, truthy, hne]
    exact ⟨heq, calls h hne heq⟩
  · intro q hget hquery hne
    have heq : getRecaptchaResponse options.field req = .str q := by
      simp [getRecaptchaResponse, jsOr, hget, hquery, ofOptString, truthy, hne]
    exact ⟨heq, calls q hne heq⟩
  · intro b hget hquery hbody hne
    have heq : getRecaptchaResponse options.field req = .str b := by
      simp [getRecaptchaResponse, jsOr, hget, hquery, hbody, ofOptString, truthy]
    exact ⟨heq, calls b hne heq⟩

/-- The tests `should look for recaptcha response in header first`, `... in query second` and
`... in body third`, obtained from the precedence theorem. -/
theorem getRecaptchaResponse_precedence_witness :
    verifierCalls (middleware sampleOptions (sampleEnv (getResponseMock none none none))
        (sampleRequest (some "header") (some "query") (some "body") .undefined)).trace =
      [getUri recaptchaUrl "mySecret" (.str "header") (.str "::1")] ∧
    verifierCalls (middleware sampleOptions (sampleEnv (getResponseMock none none none))
        (sampleRequest none (some "query") (some "body") .undefined)).trace =
      [getUri recaptchaUrl "mySecret" (.str "query") (.str "::1")] ∧
    verifierCalls (middleware sampleOptions (sampleEnv (getResponseMock none none none))
        (sampleRequest none none (some "body") .undefined)).trace =
      [getUri recaptchaUrl "mySecret" (.str "body") (.str "::1")] :=
  ⟨((getRecaptchaResponse_precedence sampleOptions (sampleEnv (getResponseMock none none none))
      (sampleRequest (some "header") (some "query") (some "body") .undefined)).2.1
      "header" rfl (by decide)).2 (by simp [sampleRequest]),
   ((getRecaptchaResponse_precedence sampleOptions (sampleEnv (getResponseMock none none none))
      (sampleRequest none (some "query") (some "body") .undefined)).2.2.1
      "query" rfl rfl (by decide)).2 (by simp [sampleRequest]),
   ((getRecaptchaResponse_precedence sampleOptions (sampleEnv (getResponseMock none none none))
      (sampleRequest none none (some "body") .undefined)).2.2.2
      "body" rfl rfl rfl (by decide)).2 (by simp [sampleRequest])⟩

/-- The rejection of a request without token. For every configuration and every request that
is not bypassed and in which the header and the reads `req.query[field]` and `req.body[field]`
are all falsy, the middleware leaves the request as it is and performs exactly one effect: the
response with status 400 and body
`{ status: 400, message: 'Request has to include recaptcha response.' }`. It does not call
`next` and does not issue the verification call. For a field that is not the name of a member of
`Object.prototype` the reads are falsy whenever query and body carry no token
(`guardedField_of_not_inherited`). -/
theorem missing_token_rejected (options : Options) (env : Env) (req : Request)
    (hbypass : req.recaptcha ≠ .bool false)
    (hheader : truthy (ofOptString (req.get options.field)) = false)
    (hquery : truthy (guardedField req.query options.field) = false)
    (hbody : truthy (guardedField req.body options.field) = false) :
    middleware options env req =
      ⟨req, [.send 400 (.obj [("status", .num 400),
        ("message", .str "Request has to include recaptcha response.")])]⟩ ∧
    dispatches (middleware options env req).trace =
      [.send 400 (.obj [("status", .num 400),
        ("message", .str "Request has to include recaptcha response.")])] ∧
    (middleware options env req).trace.any Event.isNext = false ∧
    verifierCalls (middleware options env req).trace = [] := by
  have htoken : truthy (getRecaptchaResponse options.field req) = false := by
    simp [getRecaptchaResponse, jsOr, hheader, hquery, hbody]
  have hrun : middleware options env req = ⟨req, [.send 400 missingTokenBody]⟩ := by
    simp [middleware, isFalse_eq_false hbypass, htoken]
  rw [hrun]
  exact ⟨rfl, rfl, rfl, rfl⟩

/-- The test `should respond with 400 status if req has no recaptcha response`. -/
theorem missing_token_rejected_witness :
    (middleware sampleOptions (sampleEnv (getResponseMock none none none))
        (sampleRequest none none none .undefined)).trace =
      [.send 400 (.obj [("status", .num 400),
        ("message", .str "Request has to include recaptcha response.")])] :=
  congrArg Result.trace
    (missing_token_rejected sampleOptions (sampleEnv (getResponseMock none none none))
      (sampleRequest none none none .undefined) (by simp [sampleRequest]) rfl rfl rfl).1

/-! ## Classification of the verifier's reply -/

/-- C3 (success path). For every request that reaches the verification call (it is not bypassed
and carries a token) and every reply with no transport error, status 200 and a body that parses
to a record whose `success` is `true`, whatever else the record holds: the middleware sets
`req.recaptcha` to exactly the parsed record, and after the verification call its only effect is
`next()` with no error; no response is written. -/
theorem success_sets_recaptcha_and_continues (options : Options) (env : Env) (req : Request)
    (body : String) (parsed : Fields)
    (hbypass : req.recaptcha ≠ .bool false)
    (htoken : truthy (getRecaptchaResponse options.field req) = true)
    (hreply : env.request (verificationUri options req) =
      { err := none, statusCode := 200, body := body })
    (hparse : env.jsonParse body = .ok (.obj parsed))
    (hsuccess : lookupField "success" parsed = .bool true) :
    middleware options env req =
      ⟨{ req with recaptcha := .obj parsed },
        [.request (verificationUri options req), .next none]⟩ ∧
    (middleware options env req).trace.any Event.isResponse = false := by
  have hrun : middleware options env req =
      ⟨{ req with recaptcha := .obj parsed },
        [.request (verificationUri options req), .next none]⟩ := by
    rw [middleware_of_token options env req hbypass htoken, hreply]
    simp [callback, hparse, invalidRequest, invalidRecaptcha, getProp, hsuccess, truthy]
  rw [hrun]
  exact ⟨rfl, rfl⟩

/-- The test `should place verification response on req.recaptcha`: the reply
`{"success":true}` with status 200 leaves `{ success: true }` in `req.recaptcha` and the
pipeline continues. -/
theorem success_sets_recaptcha_and_continues_witness :
    (middleware sampleOptions (sampleEnv (getResponseMock none (some 200) none))
        (sampleRequest none none (some "body") .undefined)).req.recaptcha =
      .obj [("success", .bool true)] ∧
    (middleware sampleOptions (sampleEnv (getResponseMock none (some 200) none))
        (sampleRequest none none (some "body") .undefined)).trace =
      [.request (verificationUri sampleOptions
        (sampleRequest none none (some "body") .undefined)), .next none] :=
  have h := (success_sets_recaptcha_and_continues sampleOptions
    (sampleEnv (getResponseMock none (some 200) none))
    (sampleRequest none none (some "body") .undefined)
    "\x7b\"success\":true\x7d" [("success", .bool true)]
    (by simp [sampleRequest]) (by decide) rfl rfl rfl).1
  ⟨congrArg (fun r => r.req.recaptcha) h, congrArg Result.trace h⟩

/-- C4 (invalid CAPTCHA). For every request that reaches the verification call and every reply
with no transport error, status 200 and a body that parses to a record with `success` `false`
whose `error-codes` list contains `'invalid-input-response'`, alone or among other codes: after
the verification call the middleware's only effect is the response `res.sendStatus(422)`; it
does not call `next`, neither with nor without an error. -/
theorem invalid_recaptcha_responds_422 (options : Options) (env : Env) (req : Request)
    (body : String) (parsed : Fields) (codes : List JSVal)
    (hbypass : req.recaptcha ≠ .bool false)
    (htoken : truthy (getRecaptchaResponse options.field req) = true)
    (hreply : env.request (verificationUri options req) =
      { err := none, statusCode := 200, body := body })
    (hparse : env.jsonParse body = .ok (.obj parsed))
    (hsuccess : lookupField "success" parsed = .bool false)
    (hcodes : lookupField "error-codes" parsed = .arr codes)
    (hmem : JSVal.str "invalid-input-response" ∈ codes) :
    (middleware options env req).trace =
      [.request (verificationUri options req), .sendStatus 422] ∧
    (middleware options env req).trace.any Event.isNext = false := by
  have hrun : (middleware options env req).trace =
      [.request (verificationUri options req), .sendStatus 422] := by
    rw [middleware_of_token options env req hbypass htoken, hreply]
    simp [callback, hparse, invalidRequest, invalidRecaptcha, getProp, hsuccess, hcodes, truthy,
      lodashIncludes, any_isStr_of_mem hmem]
  rw [hrun]
  exact ⟨rfl, rfl⟩

/-- The test `should respond with 422 if recaptcha response is invalid`. -/
theorem invalid_recaptcha_responds_422_witness :
    (middleware sampleOptions
        (sampleEnv (getResponseMock none (some 200)
          (some "\x7b\"success\":false,\"error-codes\":[\"invalid-input-response\"]\x7d")))
        (sampleRequest none none (some "body") .undefined)).trace =
      [.request (verificationUri sampleOptions
        (sampleRequest none none (some "body") .undefined)), .sendStatus 422] :=
  (invalid_recaptcha_responds_422 sampleOptions
    (sampleEnv (getResponseMock none (some 200)
      (some "\x7b\"success\":false,\"error-codes\":[\"invalid-input-response\"]\x7d")))
    (sampleRequest none none (some "body") .undefined)
    "\x7b\"success\":false,\"error-codes\":[\"invalid-input-response\"]\x7d"
    [("success", .bool false), ("error-codes", .arr [.str "invalid-input-response"])]
    [.str "invalid-input-response"]
    (by simp [sampleRequest]) (by decide) rfl rfl rfl rfl
    (List.mem_singleton.mpr rfl)).1

/-- C5 (bad verification request). For every request that reaches the verification call and
every reply with no transport error, status 200 and a body that parses to a record with
`success` `false` whose `error-codes` is absent or is a list that does not contain
`'invalid-input-response'`: after the verification call the middleware's only effect is
`next(error)`, where the error's message is `'bad verification request'` and its `response`
property is the full parsed record; no response is written. -/
theorem bad_verification_request_escalated (options : Options) (env : Env) (req : Request)
    (body : String) (parsed : Fields)
    (hbypass : req.recaptcha ≠ .bool false)
    (htoken : truthy (getRecaptchaResponse options.field req) = true)
    (hreply : env.request (verificationUri options req) =
      { err := none, statusCode := 200, body := body })
    (hparse : env.jsonParse body = .ok (.obj parsed))
    (hsuccess : lookupField "success" parsed = .bool false)
    (hcodes : lookupField "error-codes" parsed = .undefined ∨
      ∃ codes, lookupField "error-codes" parsed = .arr codes ∧
        JSVal.str "invalid-input-response" ∉ codes) :
    (middleware options env req).trace =
      [.request (verificationUri options req),
        .next (some { message := "bad verification request", cause := none,
                      response := .obj parsed })] ∧
    (middleware options env req).trace.any Event.isResponse = false := by
  have hinc : ∀ c, lookupField "error-codes" parsed = c →
      (c = .undefined ∨ ∃ codes, c = .arr codes ∧ JSVal.str "invalid-input-response" ∉ codes) →
      lodashIncludes c "invalid-input-response" = false := by
    intro c _ hc
    rcases hc with rfl | ⟨codes, rfl, hnot⟩
    · rfl
    · simpa [lodashIncludes] using any_isStr_of_not_mem hnot
  have hfalse : lodashIncludes (lookupField "error-codes" parsed) "invalid-input-response"
      = false := hinc _ rfl hcodes
  have hrun : (middleware options env req).trace =
      [.request (verificationUri options req),
        .next (some { message := "bad verification request", cause := none,
                      response := .obj parsed })] := by
    rw [middleware_of_token options env req hbypass htoken, hreply]
    simp [callback, hparse, invalidRequest, getProp, hsuccess, hfalse, truthy,
      badRequestError, VError.plain]
  rw [hrun]
  exact ⟨rfl, rfl⟩

/-- The test `should raise "bad verification request" if error because of bad request`. -/
theorem bad_verification_request_escalated_witness :
    (middleware sampleOptions
        (sampleEnv (getResponseMock none (some 200)
          (some "\x7b\"success\":false,\"error-codes\":[\"missing-input-secret\"]\x7d")))
        (sampleRequest none none (some "body") .undefined)).trace =
      [.request (verificationUri sampleOptions
        (sampleRequest none none (some "body") .undefined)),
        .next (some { message := "bad verification request", cause := none,
                      response := .obj [("success", .bool false),
                        ("error-codes", .arr [.str "missing-input-secret"])] })] :=
  (bad_verification_request_escalated sampleOptions
    (sampleEnv (getResponseMock none (some 200)
      (some "\x7b\"success\":false,\"error-codes\":[\"missing-input-secret\"]\x7d")))
    (sampleRequest none none (some "body") .undefined)
    "\x7b\"success\":false,\"error-codes\":[\"missing-input-secret\"]\x7d"
    [("success", .bool false), ("error-codes", .arr [.str "missing-input-secret"])]
    (by simp [sampleRequest]) (by decide) rfl rfl rfl
    (Or.inr ⟨[.str "missing-input-secret"], rfl, by simp⟩)).1

/-! ## Dispatch -/

/-- The classification predicates throw only on `null` and `undefined`. -/
theorem invalidRequest_error {v : JSVal} {e : JsError} (h : invalidRequest v = .error e) :
    v = .null ∨ v = .undefined := by
  cases v <;> simp [invalidRequest, getProp] at h ⊢ <;> split at h <;> simp at h

theorem invalidRecaptcha_error {v : JSVal} {e : JsError} (h : invalidRecaptcha v = .error e) :
    v = .null ∨ v = .undefined := by
  cases v <;> simp [invalidRecaptcha, getProp] at h ⊢ <;> split at h <;> simp at h

/-- Whenever `JSON.parse` does not return `null` (or `undefined`) on the reply's body, the
callback performs exactly one dispatch. -/
theorem callback_dispatch_once (jsonParse : String → Except JsError JSVal) (req : Request)
    (reply : Reply)
    (hparse : jsonParse reply.body ≠ .ok .null ∧ jsonParse reply.body ≠ .ok .undefined) :
    (dispatches (callback jsonParse req reply).trace).length = 1 := by
  unfold callback
  split
  · rfl
  · split
    · rfl
    · split
      · rfl
      · rename_i parsed hp
        dsimp only
        split
        · rename_i e he
          rcases invalidRequest_error he with rfl | rfl
          · exact absurd hp hparse.1
          · exact absurd hp hparse.2
        · rfl
        · split
          · rename_i e he
            rcases invalidRecaptcha_error he with rfl | rfl
            · exact absurd hp hparse.1
            · exact absurd hp hparse.2
          · rfl
          · rfl

/-- Whenever `JSON.parse` never returns `null` (or `undefined`), the middleware performs exactly
one dispatch, for every configuration, request and reply. -/
theorem dispatch_exactly_once_of_parse_ne_null (options : Options) (env : Env) (req : Request)
    (hparse : ∀ body, env.jsonParse body ≠ .ok .null ∧ env.jsonParse body ≠ .ok .undefined) :
    (dispatches (middleware options env req).trace).length = 1 := by
  cases hb : isFalse req.recaptcha
  · cases ht : truthy (getRecaptchaResponse options.field req)
    · simp [middleware, hb, ht, dispatches, Event.isDispatch]
    · have h := callback_dispatch_once env.jsonParse req
        (env.request (verificationUri options req)) (hparse _)
      simpa [middleware, hb, ht, dispatches, Event.isDispatch, verificationUri,
        List.filter_cons] using h
  · simp [middleware, hb, dispatches, Event.isDispatch]

/-- C6 (exactly-once dispatch), evaluated where it fails. The request of the test suite with a
token in the body, answered with no transport error, status 200 and the body `null`:
`JSON.parse` returns `null`, the read `verificationRes.success` in `invalidRequest` throws a
`TypeError`, and the callback ends without any dispatch (no `next`, no response); `req.recaptcha`
has been set to `null`. -/
theorem null_body_no_dispatch :
    (middleware sampleOptions (sampleEnv (getResponseMock none (some 200) (some "null")))
        (sampleRequest none none (some "body") .undefined)).trace =
      [.request (verificationUri sampleOptions
          (sampleRequest none none (some "body") .undefined)),
        .uncaught ⟨"TypeError", "Cannot read property success of null"⟩] ∧
    dispatches (middleware sampleOptions
        (sampleEnv (getResponseMock none (some 200) (some "null")))
        (sampleRequest none none (some "body") .undefined)).trace = [] ∧
    (middleware sampleOptions (sampleEnv (getResponseMock none (some 200) (some "null")))
        (sampleRequest none none (some "body") .undefined)).req.recaptcha = .null :=
  ⟨rfl, rfl, rfl⟩

/-- C7 (bad status). For every request that reaches the verification call and every reply with
no transport error and a status code `N` other than 200, whatever the body: after the
verification call the middleware's only effect is `next(error)`, where the error's message is
`'verification request returned status N'` and its `response` property is
`{ statusCode: N, body: body }` with the raw body; the outcome does not depend on `JSON.parse`
(the body is not parsed), the request is left as it is and no response is written. -/
theorem bad_status_escalated (options : Options) (env : Env) (req : Request)
    (statusCode : Nat) (body : String)
    (hbypass : req.recaptcha ≠ .bool false)
    (htoken : truthy (getRecaptchaResponse options.field req) = true)
    (hreply : env.request (verificationUri options req) =
      { err := none, statusCode := statusCode, body := body })
    (hstatus : statusCode ≠ 200) :
    middleware options env req =
      ⟨req, [.request (verificationUri options req),
        .next (some { message := "verification request returned status " ++ toString statusCode,
                      cause := none,
                      response := .obj [("statusCode", .num statusCode),
                                        ("body", .str body)] })]⟩ ∧
    (∀ jsonParse, middleware options { env with jsonParse := jsonParse } req =
      middleware options env req) ∧
    (middleware options env req).trace.any Event.isResponse = false := by
  have hrun : ∀ jsonParse, middleware options { env with jsonParse := jsonParse } req =
      ⟨req, [.request (verificationUri options req),
        .next (some { message := "verification request returned status " ++ toString statusCode,
                      cause := none,
                      response := .obj [("statusCode", .num statusCode),
                                        ("body", .str body)] })]⟩ := by
    intro jsonParse
    rw [middleware_of_token options _ req hbypass htoken]
    simp [hreply, callback, hstatus, statusError, VError.plain]
  have hself : middleware options env req = _ := hrun env.jsonParse
  refine ⟨hself, fun jsonParse => (hrun jsonParse).trans hself.symm, ?_⟩
  rw [hself]
  rfl

/-- The test `should call next with error if status of verification request is not 200`, with
a body that would parse to a success record. -/
theorem bad_status_escalated_witness :
    (middleware sampleOptions
        (sampleEnv (getResponseMock none (some 500) (some "\x7b\"success\":true\x7d")))
        (sampleRequest none none (some "body") .undefined)).trace =
      [.request (verificationUri sampleOptions
          (sampleRequest none none (some "body") .undefined)),
        .next (some { message := "verification request returned status " ++ toString 500,
                      cause := none,
                      response := .obj [("statusCode", .num 500),
                                        ("body", .str "\x7b\"success\":true\x7d")] })] :=
  congrArg Result.trace
    (bad_status_escalated sampleOptions
      (sampleEnv (getResponseMock none (some 500) (some "\x7b\"success\":true\x7d")))
      (sampleRequest none none (some "body") .undefined) 500 "\x7b\"success\":true\x7d"
      (by simp [sampleRequest]) (by decide) rfl (by decide)).1

/-- C8 (transport failure). For every request that reaches the verification call and every
reply that reports a transport error, whatever status code and body accompany it: after the
verification call the middleware's only effect is `next(error)`, where the error's message is
`'verification request failed: '` followed by the transport error's message (so it includes
`'verification request failed'`) and its cause is exactly the transport error; the request is
left as it is and no response is written. -/
theorem transport_failure_escalated (options : Options) (env : Env) (req : Request)
    (cause : JsError) (statusCode : Nat) (body : String)
    (hbypass : req.recaptcha ≠ .bool false)
    (htoken : truthy (getRecaptchaResponse options.field req) = true)
    (hreply : env.request (verificationUri options req) =
      { err := some cause, statusCode := statusCode, body := body }) :
    middleware options env req =
      ⟨req, [.request (verificationUri options req),
        .next (some { message := "verification request failed" ++ ": " ++ cause.message,
                      cause := some cause, response := .undefined })]⟩ ∧
    strIncludes ("verification request failed" ++ ": " ++ cause.message)
      "verification request failed" = true ∧
    (middleware options env req).trace.any Event.isResponse = false := by
  have hrun : middleware options env req =
      ⟨req, [.request (verificationUri options req),
        .next (some { message := "verification request failed" ++ ": " ++ cause.message,
                      cause := some cause, response := .undefined })]⟩ := by
    rw [middleware_of_token options env req hbypass htoken, hreply]
    simp [callback, VError.wrap]
  refine ⟨hrun, ?_, ?_⟩
  · rw [String.append_assoc]
    exact strIncludes_append _ _
  · rw [hrun]
    rfl

/-- The test `should call next with error if verification request returns an error`. -/
theorem transport_failure_escalated_witness :
    (middleware sampleOptions
        (sampleEnv (getResponseMock (some ⟨"Error", "Some Error"⟩) none none))
        (sampleRequest none none (some "body") .undefined)).trace =
      [.request (verificationUri sampleOptions
          (sampleRequest none none (some "body") .undefined)),
        .next (some { message := "verification request failed" ++ ": " ++ "Some Error",
                      cause := some ⟨"Error", "Some Error"⟩, response := .undefined })] :=
  congrArg Result.trace
    (transport_failure_escalated sampleOptions
      (sampleEnv (getResponseMock (some ⟨"Error", "Some Error"⟩) none none))
      (sampleRequest none none (some "body") .undefined)
      ⟨"Error", "Some Error"⟩ 200 "\x7b\"success\":true\x7d"
      (by simp [sampleRequest]) (by decide) rfl).1

/-- C9 (malformed body). For every request that reaches the verification call and every reply
with no transport error, status 200 and a body on which `JSON.parse` throws: after the
verification call the middleware's only effect is `next(error)`, where the error's message is
`'parsing body of verification response failed: '` followed by the parse failure's message (so
it includes `'parsing body of verification response failed'`) and its cause is the parse
failure; the request is left as it is (no classification took place) and no response is
written. -/
theorem malformed_body_escalated (options : Options) (env : Env) (req : Request)
    (body : String) (failure : JsError)
    (hbypass : req.recaptcha ≠ .bool false)
    (htoken : truthy (getRecaptchaResponse options.field req) = true)
    (hreply : env.request (verificationUri options req) =
      { err := none, statusCode := 200, body := body })
    (hparse : env.jsonParse body = .error failure) :
    middleware options env req =
      ⟨req, [.request (verificationUri options req),
        .next (some { message :=
                        "parsing body of verification response failed" ++ ": " ++ failure.message,
                      cause := some failure, response := .undefined })]⟩ ∧
    strIncludes ("parsing body of verification response failed" ++ ": " ++ failure.message)
      "parsing body of verification response failed" = true ∧
    (middleware options env req).trace.any Event.isResponse = false := by
  have hrun : middleware options env req =
      ⟨req, [.request (verificationUri options req),
        .next (some { message :=
                        "parsing body of verification response failed" ++ ": " ++ failure.message,
                      cause := some failure, response := .undefined })]⟩ := by
    rw [middleware_of_token options env req hbypass htoken, hreply]
    simp [callback, hparse, VError.wrap]
  refine ⟨hrun, ?_, ?_⟩
  · rw [String.append_assoc]
    exact strIncludes_append _ _
  · rw [hrun]
    rfl

/-- The test `should call next with error if body of verification request cant be parsed`. -/
theorem malformed_body_escalated_witness :
    (middleware sampleOptions (sampleEnv (getResponseMock none (some 200) (some "not")))
        (sampleRequest none none (some "body") .undefined)).trace =
      [.request (verificationUri sampleOptions
          (sampleRequest none none (some "body") .undefined)),
        .next (some { message :=
                        "parsing body of verification response failed" ++ ": " ++
                          "Unexpected token",
                      cause := some ⟨"SyntaxError", "Unexpected token"⟩,
                      response := .undefined })] :=
  congrArg Result.trace
    (malformed_body_escalated sampleOptions
      (sampleEnv (getResponseMock none (some 200) (some "not")))
      (sampleRequest none none (some "body") .undefined)
      "not" ⟨"SyntaxError", "Unexpected token"⟩
      (by simp [sampleRequest]) (by decide) rfl rfl).1

/-- C10 (bypass). For every configuration, every environment and every request whose
`req.recaptcha` is the boolean `false` before invocation, whether or not it carries a token: the
middleware's only effect is one call `next()` without error; the verification call is not issued,
no response is written, and the request, `req.recaptcha` included, is left as it is. -/
theorem bypass_skips_verification (options : Options) (env : Env) (req : Request)
    (hbypass : req.recaptcha = .bool false) :
    middleware options env req = ⟨req, [.next none]⟩ ∧
    verifierCalls (middleware options env req).trace = [] ∧
    (middleware options env req).trace.any Event.isResponse = false ∧
    (middleware options env req).req.recaptcha = .bool false := by
  have hrun : middleware options env req = ⟨req, [.next none]⟩ := by
    simp [middleware, hbypass, isFalse]
  rw [hrun]
  exact ⟨rfl, rfl, rfl, hbypass⟩

/-- The test `should skip verification if req.recaptcha is set to false`, for a request that
carries a token and for one that does not. -/
theorem bypass_skips_verification_witness :
    (middleware sampleOptions (sampleEnv (getResponseMock none none none))
        (sampleRequest (some "header") none none (.bool false))).trace = [.next none] ∧
    (middleware sampleOptions (sampleEnv (getResponseMock none none none))
        (sampleRequest none none none (.bool false))).trace = [.next none] :=
  ⟨congrArg Result.trace
    (bypass_skips_verification sampleOptions (sampleEnv (getResponseMock none none none))
      (sampleRequest (some "header") none none (.bool false)) rfl).1,
   congrArg Result.trace
    (bypass_skips_verification sampleOptions (sampleEnv (getResponseMock none none none))
      (sampleRequest none none none (.bool false)) rfl).1⟩

/-! ## The bypass flag and the recaptcha slot -/

/-- C14 (bypass is strict). For every request whose `req.recaptcha` is anything but the boolean
`false` (absent, `null`, `0`, the empty string, `true`, a record, ...), verification is not
skipped: the middleware extracts the token and either rejects the request with the 400 response
(no token) or issues the verification call for the extracted token as its first effect. -/
theorem bypass_is_strict (options : Options) (env : Env) (req : Request)
    (hflag : req.recaptcha ≠ .bool false) :
    (truthy (getRecaptchaResponse options.field req) = false ∧
      middleware options env req =
        ⟨req, [.send 400 (.obj [("status", .num 400),
          ("message", .str "Request has to include recaptcha response.")])]⟩) ∨
    (truthy (getRecaptchaResponse options.field req) = true ∧
      ∃ rest, (middleware options env req).trace =
        .request (getUri options.url options.secret (getRecaptchaResponse options.field req)
          (ofOptString req.ip)) :: rest) := by
  cases ht : truthy (getRecaptchaResponse options.field req)
  · left
    refine ⟨rfl, ?_⟩
    simp [middleware, isFalse_eq_false hflag, ht, missingTokenBody]
  · right
    refine ⟨rfl, ?_⟩
    rw [middleware_of_token options env req hflag ht]
    exact ⟨_, rfl⟩

/-- The values `undefined`, `null`, `0`, the empty string, `true` and a previous outcome record
in `req.recaptcha` do not skip verification: without a token the request is rejected with 400,
with a token the verification call is issued. -/
theorem bypass_is_strict_witness :
    (middleware sampleOptions (sampleEnv (getResponseMock none none none))
        (sampleRequest none none none .undefined)).trace =
      [.send 400 (.obj [("status", .num 400),
        ("message", .str "Request has to include recaptcha response.")])] ∧
    (middleware sampleOptions (sampleEnv (getResponseMock none none none))
        (sampleRequest none none none .null)).trace =
      [.send 400 (.obj [("status", .num 400),
        ("message", .str "Request has to include recaptcha response.")])] ∧
    (middleware sampleOptions (sampleEnv (getResponseMock none none none))
        (sampleRequest none none none (.num 0))).trace =
      [.send 400 (.obj [("status", .num 400),
        ("message", .str "Request has to include recaptcha response.")])] ∧
    (middleware sampleOptions (sampleEnv (getResponseMock none none none))
        (sampleRequest none none none (.str ""))).trace =
      [.send 400 (.obj [("status", .num 400),
        ("message", .str "Request has to include recaptcha response.")])] ∧
    (middleware sampleOptions (sampleEnv (getResponseMock none none none))
        (sampleRequest none none none (.bool true))).trace =
      [.send 400 (.obj [("status", .num 400),
        ("message", .str "Request has to include recaptcha response.")])] ∧
    (middleware sampleOptions (sampleEnv (getResponseMock none none none))
        (sampleRequest none none none (.obj [("success", .bool true)]))).trace =
      [.send 400 (.obj [("status", .num 400),
        ("message", .str "Request has to include recaptcha response.")])] ∧
    (∃ rest, (middleware sampleOptions (sampleEnv (getResponseMock none none none))
        (sampleRequest none none (some "body") (.obj [("success", .bool true)]))).trace =
      .request (getUri recaptchaUrl "mySecret" (.str "body") (.str "::1")) :: rest) :=
  ⟨(bypass_is_strict sampleOptions (sampleEnv (getResponseMock none none none))
      (sampleRequest none none none .undefined) (by simp [sampleRequest])).elim
      (fun h => congrArg Result.trace h.2) (fun h => absurd h.1 (by decide)),
   (bypass_is_strict sampleOptions (sampleEnv (getResponseMock none none none))
      (sampleRequest none none none .null) (by simp [sampleRequest])).elim
      (fun h => congrArg Result.trace h.2) (fun h => absurd h.1 (by decide)),
   (bypass_is_strict sampleOptions (sampleEnv (getResponseMock none none none))
      (sampleRequest none none none (.num 0)) (by simp [sampleRequest])).elim
      (fun h => congrArg Result.trace h.2) (fun h => absurd h.1 (by decide)),
   (bypass_is_strict sampleOptions (sampleEnv (getResponseMock none none none))
      (sampleRequest none none none (.str "")) (by simp [sampleRequest])).elim
      (fun h => congrArg Result.trace h.2) (fun h => absurd h.1 (by decide)),
   (bypass_is_strict sampleOptions (sampleEnv (getResponseMock none none none))
      (sampleRequest none none none (.bool true)) (by simp [sampleRequest])).elim
      (fun h => congrArg Result.trace h.2) (fun h => absurd h.1 (by decide)),
   (bypass_is_strict sampleOptions (sampleEnv (getResponseMock none none none))
      (sampleRequest none none none (.obj [("success", .bool true)])) (by simp [sampleRequest])).elim
      (fun h => congrArg Result.trace h.2) (fun h => absurd h.1 (by decide)),
   (bypass_is_strict sampleOptions (sampleEnv (getResponseMock none none none))
      (sampleRequest none none (some "body") (.obj [("success", .bool true)]))
      (by simp [sampleRequest])).elim
      (fun h => absurd h.1 (by decide)) (fun h => h.2)⟩

/-- C15 (no outcome recorded on early failures). Whenever the run ends in the 400 rejection (no
token), or the verifier's reply reports a transport error, or its status is not 200, or
`JSON.parse` throws on its body, the request after the middleware has run is the request before
it ran; in particular `req.recaptcha` has its former value. -/
theorem early_failure_leaves_request (options : Options) (env : Env) (req : Request)
    (hearly : truthy (getRecaptchaResponse options.field req) = false ∨
      (∃ cause, (env.request (verificationUri options req)).err = some cause) ∨
      (env.request (verificationUri options req)).statusCode ≠ 200 ∨
      (∃ failure, env.jsonParse (env.request (verificationUri options req)).body =
        .error failure)) :
    (middleware options env req).req = req ∧
    (middleware options env req).req.recaptcha = req.recaptcha := by
  have hreq : (middleware options env req).req = req := by
    cases hb : isFalse req.recaptcha
    · cases ht : truthy (getRecaptchaResponse options.field req)
      · simp [middleware, hb, ht]
      · have hcb : (callback env.jsonParse req (env.request (verificationUri options req))).req
            = req := by
          rcases hearly with h | ⟨cause, h⟩ | h | ⟨failure, h⟩
          · rw [ht] at h
            exact absurd h (by decide)
          · simp [callback, h]
          · unfold callback
            split
            · rfl
            · simp [h]
          · unfold callback
            split
            · rfl
            · split
              · rfl
              · simp [h]
        simpa [middleware, hb, ht, verificationUri] using hcb
    · simp [middleware, hb]
  exact ⟨hreq, congrArg Request.recaptcha hreq⟩

/-- The four early failures of the test suite, on a request whose `req.recaptcha` holds a
previous outcome: the slot keeps it. -/
theorem early_failure_leaves_request_witness :
    (middleware sampleOptions (sampleEnv (getResponseMock none none none))
        (sampleRequest none none none (.obj [("success", .bool true)]))).req.recaptcha =
      .obj [("success", .bool true)] ∧
    (middleware sampleOptions
        (sampleEnv (getResponseMock (some ⟨"Error", "Some Error"⟩) none none))
        (sampleRequest none none (some "body") (.obj [("success", .bool true)]))).req.recaptcha =
      .obj [("success", .bool true)] ∧
    (middleware sampleOptions (sampleEnv (getResponseMock none (some 500) none))
        (sampleRequest none none (some "body") (.obj [("success", .bool true)]))).req.recaptcha =
      .obj [("success", .bool true)] ∧
    (middleware sampleOptions (sampleEnv (getResponseMock none none (some "not")))
        (sampleRequest none none (some "body") (.obj [("success", .bool true)]))).req.recaptcha =
      .obj [("success", .bool true)] :=
  ⟨(early_failure_leaves_request sampleOptions (sampleEnv (getResponseMock none none none))
      (sampleRequest none none none (.obj [("success", .bool true)])) (Or.inl rfl)).2,
   (early_failure_leaves_request sampleOptions
      (sampleEnv (getResponseMock (some ⟨"Error", "Some Error"⟩) none none))
      (sampleRequest none none (some "body") (.obj [("success", .bool true)]))
      (Or.inr (Or.inl ⟨_, rfl⟩))).2,
   (early_failure_leaves_request sampleOptions
      (sampleEnv (getResponseMock none (some 500) none))
      (sampleRequest none none (some "body") (.obj [("success", .bool true)]))
      (Or.inr (Or.inr (Or.inl (by decide))))).2,
   (early_failure_leaves_request sampleOptions
      (sampleEnv (getResponseMock none none (some "not")))
      (sampleRequest none none (some "body") (.obj [("success", .bool true)]))
      (Or.inr (Or.inr (Or.inr ⟨_, rfl⟩)))).2⟩

/-- C17 (the parsed record is stored before classification). For every request that reaches the
verification call and every reply with no transport error, status 200 and a body that parses to
a record, `req.recaptcha` holds the parsed record after the middleware has run, whatever its
former value and whatever the classification then decides (success, 422 or bad verification
request); nothing else of the request changes. -/
theorem parsed_record_stored (options : Options) (env : Env) (req : Request)
    (body : String) (parsed : Fields)
    (hbypass : req.recaptcha ≠ .bool false)
    (htoken : truthy (getRecaptchaResponse options.field req) = true)
    (hreply : env.request (verificationUri options req) =
      { err := none, statusCode := 200, body := body })
    (hparse : env.jsonParse body = .ok (.obj parsed)) :
    (middleware options env req).req = { req with recaptcha := .obj parsed } ∧
    (middleware options env req).req.recaptcha = .obj parsed := by
  have hreq : (middleware options env req).req = { req with recaptcha := .obj parsed } := by
    rw [middleware_of_token options env req hbypass htoken, hreply]
    simp only [callback, hparse, ne_eq, not_true_eq_false, if_false]
    split
    · rfl
    · rfl
    · split <;> rfl
  exact ⟨hreq, congrArg Request.recaptcha hreq⟩

/-- A request with a previous outcome `{ success: true }` in `req.recaptcha`: after a reply
classified as invalid CAPTCHA (422) and after one classified as bad verification request, the
slot holds the parsed record of the failed verification. -/
theorem parsed_record_stored_witness :
    (middleware sampleOptions
        (sampleEnv (getResponseMock none (some 200)
          (some "\x7b\"success\":false,\"error-codes\":[\"invalid-input-response\"]\x7d")))
        (sampleRequest none none (some "body") (.obj [("success", .bool true)]))).req.recaptcha =
      .obj [("success", .bool false), ("error-codes", .arr [.str "invalid-input-response"])] ∧
    (middleware sampleOptions
        (sampleEnv (getResponseMock none (some 200)
          (some "\x7b\"success\":false,\"error-codes\":[\"missing-input-secret\"]\x7d")))
        (sampleRequest none none (some "body") (.obj [("success", .bool true)]))).req.recaptcha =
      .obj [("success", .bool false), ("error-codes", .arr [.str "missing-input-secret"])] :=
  ⟨(parsed_record_stored sampleOptions
      (sampleEnv (getResponseMock none (some 200)
        (some "\x7b\"success\":false,\"error-codes\":[\"invalid-input-response\"]\x7d")))
      (sampleRequest none none (some "body") (.obj [("success", .bool true)]))
      "\x7b\"success\":false,\"error-codes\":[\"invalid-input-response\"]\x7d"
      [("success", .bool false), ("error-codes", .arr [.str "invalid-input-response"])]
      (by simp [sampleRequest]) (by decide) rfl rfl).2,
   (parsed_record_stored sampleOptions
      (sampleEnv (getResponseMock none (some 200)
        (some "\x7b\"success\":false,\"error-codes\":[\"missing-input-secret\"]\x7d")))
      (sampleRequest none none (some "body") (.obj [("success", .bool true)]))
      "\x7b\"success\":false,\"error-codes\":[\"missing-input-secret\"]\x7d"
      [("success", .bool false), ("error-codes", .arr [.str "missing-input-secret"])]
      (by simp [sampleRequest]) (by decide) rfl rfl).2⟩

/-! ## Classification is a partition -/

/-- On a record, the two predicates are the two halves of `!success`. -/
theorem invalidRequest_obj (fields : Fields) :
    invalidRequest (.obj fields) =
      .ok (!truthy (lookupField "success" fields) &&
        !lodashIncludes (lookupField "error-codes" fields) "invalid-input-response") := by
  cases h : truthy (lookupField "success" fields) <;> simp [invalidRequest, getProp, h]

theorem invalidRecaptcha_obj (fields : Fields) :
    invalidRecaptcha (.obj fields) =
      .ok (!truthy (lookupField "success" fields) &&
        lodashIncludes (lookupField "error-codes" fields) "invalid-input-response") := by
  cases h : truthy (lookupField "success" fields) <;> simp [invalidRecaptcha, getProp, h]

/-- C16 (classification is a partition). For every parsed verification record, `invalidRequest`
and `invalidRecaptcha` both return a boolean, they are never both `true`, and at least one of
them is `true` exactly when the record's `success` is falsy. Hence on a reply with no transport
error, status 200 and a body that parses to the record, the callback ends in exactly one of the
three outcomes: `next(error)` with the bad-verification-request error when `invalidRequest`
holds, the 422 response when `invalidRecaptcha` holds, `next()` when neither holds (that is, when
`success` is truthy); and testing the two predicates in the opposite order gives the same
result. -/
theorem classification_partition (jsonParse : String → Except JsError JSVal) (req : Request)
    (reply : Reply) (fields : Fields)
    (herr : reply.err = none) (hstatus : reply.statusCode = 200)
    (hparse : jsonParse reply.body = .ok (.obj fields)) :
    ∃ isRequest isRecaptcha : Bool,
      invalidRequest (.obj fields) = .ok isRequest ∧
      invalidRecaptcha (.obj fields) = .ok isRecaptcha ∧
      ¬(isRequest = true ∧ isRecaptcha = true) ∧
      ((isRequest = true ∨ isRecaptcha = true) ↔
        truthy (lookupField "success" fields) = false) ∧
      (callback jsonParse req reply).trace =
        (if isRequest then [.next (some (badRequestError (.obj fields)))]
         else if isRecaptcha then [.sendStatus 422]
         else [.next none]) ∧
      callbackRecaptchaFirst jsonParse req reply = callback jsonParse req reply := by
  refine ⟨_, _, invalidRequest_obj fields, invalidRecaptcha_obj fields, ?_, ?_, ?_, ?_⟩
  · cases truthy (lookupField "success" fields) <;>
      cases lodashIncludes (lookupField "error-codes" fields) "invalid-input-response" <;> simp
  · cases truthy (lookupField "success" fields) <;>
      cases lodashIncludes (lookupField "error-codes" fields) "invalid-input-response" <;> simp
  · simp only [callback, herr, hstatus, hparse, invalidRequest_obj, invalidRecaptcha_obj]
    cases truthy (lookupField "success" fields) <;>
      cases lodashIncludes (lookupField "error-codes" fields) "invalid-input-response" <;> simp
  · simp only [callback, callbackRecaptchaFirst, herr, hstatus, hparse, invalidRequest_obj,
      invalidRecaptcha_obj]
    cases truthy (lookupField "success" fields) <;>
      cases lodashIncludes (lookupField "error-codes" fields) "invalid-input-response" <;> simp

/-- The reply of the test `should raise "bad verification request" if error because of bad
request`: the two predicates exclude each other on its record, and either order of the tests
gives the same result. -/
theorem classification_partition_witness :
    (∃ isRequest isRecaptcha : Bool,
      invalidRequest (.obj [("success", .bool false),
        ("error-codes", .arr [.str "missing-input-secret"])]) = .ok isRequest ∧
      invalidRecaptcha (.obj [("success", .bool false),
        ("error-codes", .arr [.str "missing-input-secret"])]) = .ok isRecaptcha ∧
      ¬(isRequest = true ∧ isRecaptcha = true) ∧
      ((isRequest = true ∨ isRecaptcha = true) ↔
        truthy (lookupField "success" [("success", .bool false),
          ("error-codes", .arr [.str "missing-input-secret"])]) = false) ∧
      (callback sampleParse (sampleRequest none none (some "body") .undefined)
          (getResponseMock none (some 200)
            (some "\x7b\"success\":false,\"error-codes\":[\"missing-input-secret\"]\x7d")
            "uri")).trace =
        (if isRequest then [.next (some (badRequestError (.obj [("success", .bool false),
            ("error-codes", .arr [.str "missing-input-secret"])])))]
         else if isRecaptcha then [.sendStatus 422]
         else [.next none]) ∧
      callbackRecaptchaFirst sampleParse (sampleRequest none none (some "body") .undefined)
          (getResponseMock none (some 200)
            (some "\x7b\"success\":false,\"error-codes\":[\"missing-input-secret\"]\x7d")
            "uri") =
        callback sampleParse (sampleRequest none none (some "body") .undefined)
          (getResponseMock none (some 200)
            (some "\x7b\"success\":false,\"error-codes\":[\"missing-input-secret\"]\x7d")
            "uri")) :=
  classification_partition sampleParse (sampleRequest none none (some "body") .undefined)
    (getResponseMock none (some 200)
      (some "\x7b\"success\":false,\"error-codes\":[\"missing-input-secret\"]\x7d") "uri")
    [("success", .bool false), ("error-codes", .arr [.str "missing-input-secret"])]
    rfl rfl rfl

/-! ## The verification URI

Decoding what `querystring.escape` and `querystring.stringify` produce gives back the names and
values that went in. -/

theorem char_toNat_lt (c : Char) : c.toNat < 1114112 := by
  have h := c.valid
  simp only [UInt32.isValidChar, Nat.isValidChar] at h
  have : c.toNat = c.val.toNat := rfl
  omega

theorem hexVal_hexDigit (n : Nat) (h : n < 16) : hexVal (hexDigit n) = some n := by
  interval_cases n <;> decide

theorem utf8Bytes_lt (c : Char) : ∀ b ∈ utf8Bytes c, b < 256 := by
  have hc := char_toNat_lt c
  intro b hb
  unfold utf8Bytes at hb
  simp only at hb
  split at hb
  · simp at hb; omega
  · split at hb
    · simp at hb; omega
    · split at hb
      · simp at hb; omega
      · simp at hb; omega

theorem percentDecode_percentByte (b : Nat) (hb : b < 256) (rest : List Char) :
    percentDecode (percentByte b ++ rest) = (percentDecode rest).map (b :: ·) := by
  have h1 : hexVal (hexDigit (b / 16)) = some (b / 16) := hexVal_hexDigit _ (by omega)
  have h2 : hexVal (hexDigit (b % 16)) = some (b % 16) := hexVal_hexDigit _ (by omega)
  have h37 : (Char.ofNat 37).toNat = 37 := by decide
  have hb16 : 16 * (b / 16) + b % 16 = b := Nat.div_add_mod b 16
  show percentDecode (Char.ofNat 37 :: hexDigit (b / 16) :: hexDigit (b % 16) :: rest) = _
  rw [percentDecode]
  simp only [h37, if_true, h1, h2]
  cases percentDecode rest with
  | none => rfl
  | some bytes => simp only [Option.map_some', hb16]

theorem percentDecode_flatMap_percentByte (bs : List Nat) (h : ∀ b ∈ bs, b < 256)
    (rest : List Char) :
    percentDecode (bs.flatMap percentByte ++ rest) = (percentDecode rest).map (bs ++ ·) := by
  induction bs with
  | nil => simp
  | cons b bs ih =>
    rw [List.flatMap_cons, List.append_assoc, percentDecode_percentByte b (h b (by simp)),
      ih (fun x hx => h x (by simp [hx]))]
    cases percentDecode rest <;> simp

theorem isUnreserved_ne_percent (c : Char) (h : isUnreserved c = true) : c.toNat ≠ 37 := by
  intro h37
  have hc : c = Char.ofNat 37 := by rw [← h37, Char.ofNat_toNat]
  rw [hc] at h
  exact absurd h (by decide)

theorem percentDecode_escape_char (c : Char) (rest : List Char) :
    percentDecode ((if isUnreserved c then [c] else (utf8Bytes c).flatMap percentByte) ++ rest) =
      (percentDecode rest).map (utf8Bytes c ++ ·) := by
  split
  · rename_i h
    have hne := isUnreserved_ne_percent c h
    show percentDecode (c :: rest) = _
    conv => lhs; unfold percentDecode
    simp only [hne, if_false]
  · exact percentDecode_flatMap_percentByte _ (utf8Bytes_lt c) rest

theorem percentDecode_escape (cs : List Char) :
    percentDecode (cs.flatMap fun c =>
      if isUnreserved c then [c] else (utf8Bytes c).flatMap percentByte) =
      some (cs.flatMap utf8Bytes) := by
  induction cs with
  | nil => rfl
  | cons c cs ih =>
    rw [List.flatMap_cons, percentDecode_escape_char, ih]
    simp


theorem isContinuation_low (n : Nat) : isContinuation (128 + n % 64) = true := by
  simp only [isContinuation, Bool.and_eq_true, decide_eq_true_eq]
  omega

theorem utf8DecodeFrom_start_ascii (b : Nat) (rest : List Nat) (h : b < 128) :
    utf8DecodeFrom 0 0 (b :: rest) = (utf8DecodeFrom 0 0 rest).map (Char.ofNat b :: ·) := by
  rw [utf8DecodeFrom]
  simp only [h, if_true]

theorem utf8DecodeFrom_last (pending n : Nat) (rest : List Nat) :
    utf8DecodeFrom pending 1 ((128 + n % 64) :: rest) =
      (utf8DecodeFrom 0 0 rest).map (Char.ofNat (pending * 64 + n % 64) :: ·) := by
  rw [utf8DecodeFrom]
  simp only [isContinuation_low, if_true, Nat.add_sub_cancel_left]

theorem utf8DecodeFrom_more (pending need n : Nat) (rest : List Nat) :
    utf8DecodeFrom pending (need + 2) ((128 + n % 64) :: rest) =
      utf8DecodeFrom (pending * 64 + n % 64) (need + 1) rest := by
  rw [utf8DecodeFrom]
  simp only [isContinuation_low, if_true, Nat.add_sub_cancel_left, Nat.add_one_ne_zero, if_false]

theorem utf8Decode_utf8Bytes (c : Char) (rest : List Nat) :
    utf8Decode (utf8Bytes c ++ rest) = (utf8Decode rest).map (c :: ·) := by
  have hc := char_toNat_lt c
  have hof := Char.ofNat_toNat c
  unfold utf8Decode utf8Bytes
  simp only
  split
  · rename_i h1
    show utf8DecodeFrom 0 0 (c.toNat :: rest) = _
    rw [utf8DecodeFrom_start_ascii _ _ h1, hof]
  · split
    · rename_i h1 h2
      show utf8DecodeFrom 0 0 ((192 + c.toNat / 64) :: (128 + c.toNat % 64) :: rest) = _
      rw [utf8DecodeFrom]
      have e1 : ¬ (192 + c.toNat / 64 < 128) := by omega
      have e2 : ¬ (192 + c.toNat / 64 < 192) := by omega
      have e3 : 192 + c.toNat / 64 < 224 := by omega
      have e5 : (192 + c.toNat / 64 - 192) * 64 + c.toNat % 64 = c.toNat := by omega
      simp only [e1, e2, e3, if_true, if_false, utf8DecodeFrom_last, e5, hof]
    · split
      · rename_i h1 h2 h3
        show utf8DecodeFrom 0 0 ((224 + c.toNat / 4096) :: (128 + c.toNat / 64 % 64) ::
          (128 + c.toNat % 64) :: rest) = _
        rw [utf8DecodeFrom]
        have e1 : ¬ (224 + c.toNat / 4096 < 128) := by omega
        have e2 : ¬ (224 + c.toNat / 4096 < 192) := by omega
        have e3 : ¬ (224 + c.toNat / 4096 < 224) := by omega
        have e4 : 224 + c.toNat / 4096 < 240 := by omega
        have e5 : ((224 + c.toNat / 4096 - 224) * 64 + c.toNat / 64 % 64) * 64 + c.toNat % 64 =
            c.toNat := by omega
        simp only [e1, e2, e3, e4, if_true, if_false, utf8DecodeFrom_more, Nat.zero_add,
          Nat.reduceAdd, utf8DecodeFrom_last, e5, hof]
      · rename_i h1 h2 h3
        show utf8DecodeFrom 0 0 ((240 + c.toNat / 262144) :: (128 + c.toNat / 4096 % 64) ::
          (128 + c.toNat / 64 % 64) :: (128 + c.toNat % 64) :: rest) = _
        rw [utf8DecodeFrom]
        have e1 : ¬ (240 + c.toNat / 262144 < 128) := by omega
        have e2 : ¬ (240 + c.toNat / 262144 < 192) := by omega
        have e3 : ¬ (240 + c.toNat / 262144 < 224) := by omega
        have e4 : ¬ (240 + c.toNat / 262144 < 240) := by omega
        have e5 : (((240 + c.toNat / 262144 - 240) * 64 + c.toNat / 4096 % 64) * 64 +
            c.toNat / 64 % 64) * 64 + c.toNat % 64 = c.toNat := by omega
        simp only [e1, e2, e3, e4, if_true, if_false, utf8DecodeFrom_more, Nat.zero_add,
          Nat.reduceAdd, utf8DecodeFrom_last, e5, hof]

theorem utf8Decode_flatMap (cs : List Char) :
    utf8Decode (cs.flatMap utf8Bytes) = some cs := by
  induction cs with
  | nil => rfl
  | cons c cs ih => rw [List.flatMap_cons, utf8Decode_utf8Bytes, ih]; rfl

theorem unescapeChars_escape (s : String) : unescapeChars (escape s).data = some s := by
  simp only [unescapeChars, escape, percentDecode_escape, utf8Decode_flatMap, Option.map_some']

theorem intercalate_go_data (sep : String) (l : List String) (acc : String) :
    (String.intercalate.go acc sep l).data =
      acc.data ++ (l.map fun x => sep.data ++ x.data).flatten := by
  induction l generalizing acc with
  | nil => simp [String.intercalate.go]
  | cons a l ih =>
    rw [String.intercalate.go, ih]
    simp [String.data_append, List.append_assoc]

theorem list_intercalate_cons {α : Type} (sep a : List α) (l : List (List α)) :
    List.intercalate sep (a :: l) = a ++ (l.map fun x => sep ++ x).flatten := by
  induction l generalizing a with
  | nil => simp [List.intercalate]
  | cons b l ih =>
    have := ih b
    simp only [List.intercalate, List.intersperse_cons_cons, List.flatten_cons, List.map_cons] at this ⊢
    rw [this]
    simp

theorem string_intercalate_data (sep : String) (l : List String) :
    (String.intercalate sep l).data = List.intercalate sep.data (l.map String.data) := by
  cases l with
  | nil => simp [String.intercalate, List.intercalate]
  | cons a l =>
    rw [String.intercalate, intercalate_go_data, List.map_cons, list_intercalate_cons]
    simp [List.map_map, Function.comp_def]


theorem hexDigit_not_delim (n : Nat) (h : n < 16) :
    hexDigit n ≠ '&' ∧ hexDigit n ≠ '=' := by
  interval_cases n <;> decide

theorem escape_not_delim (s : String) :
    '&' ∉ (escape s).data ∧ '=' ∉ (escape s).data := by
  have key : ∀ ch ∈ (escape s).data, ch ≠ '&' ∧ ch ≠ '=' := by
    intro ch hch
    simp only [escape, List.mem_flatMap] at hch
    obtain ⟨c, -, hc⟩ := hch
    split at hc
    · rename_i hu
      rw [List.mem_singleton] at hc
      subst hc
      constructor
      · rintro rfl
        exact absurd hu (by decide)
      · rintro rfl
        exact absurd hu (by decide)
    · simp only [List.mem_flatMap] at hc
      obtain ⟨b, hb, hcb⟩ := hc
      have hlt := utf8Bytes_lt c b hb
      simp only [percentByte, List.mem_cons, List.mem_singleton, List.not_mem_nil, or_false]
        at hcb
      rcases hcb with rfl | rfl | rfl
      · decide
      · exact hexDigit_not_delim _ (by omega)
      · exact hexDigit_not_delim _ (by omega)
  exact ⟨fun h => (key _ h).1 rfl, fun h => (key _ h).2 rfl⟩

theorem splitOn_pair (k v : String) :
    ((escape k ++ "=" ++ escape v).data).splitOn '=' = [(escape k).data, (escape v).data] := by
  have hx : ∀ l ∈ [(escape k).data, (escape v).data], '=' ∉ l := by
    intro l hl
    simp only [List.mem_cons, List.mem_singleton, List.not_mem_nil, or_false] at hl
    rcases hl with rfl | rfl
    · exact (escape_not_delim k).2
    · exact (escape_not_delim v).2
  have h := List.splitOn_intercalate _ '=' hx (by simp)
  simpa [List.intercalate, String.data_append] using h

theorem pair_no_amp (k v : String) : '&' ∉ (escape k ++ "=" ++ escape v).data := by
  simp only [String.data_append, List.mem_append, not_or]
  exact ⟨⟨(escape_not_delim k).1, by decide⟩, (escape_not_delim v).1⟩

theorem decodePairs_pair (k v : String) (rest : List (List Char)) :
    decodePairs ((escape k ++ "=" ++ escape v).data :: rest) =
      (decodePairs rest).map ((k, v) :: ·) := by
  rw [decodePairs, splitOn_pair]
  simp only [unescapeChars_escape]
  cases decodePairs rest <;> rfl

theorem decodeQuery_three (k1 v1 k2 v2 k3 v3 : String) :
    decodeQuery ("&".intercalate [escape k1 ++ "=" ++ escape v1, escape k2 ++ "=" ++ escape v2,
      escape k3 ++ "=" ++ escape v3]) = some [(k1, v1), (k2, v2), (k3, v3)] := by
  unfold decodeQuery
  rw [string_intercalate_data]
  have hx : ∀ l ∈ [(escape k1 ++ "=" ++ escape v1).data, (escape k2 ++ "=" ++ escape v2).data,
      (escape k3 ++ "=" ++ escape v3).data], '&' ∉ l := by
    intro l hl
    simp only [List.mem_cons, List.mem_singleton, List.not_mem_nil, or_false] at hl
    rcases hl with rfl | rfl | rfl <;> exact pair_no_amp _ _
  have h := List.splitOn_intercalate _ '&' hx (by simp)
  have hd : "&".data = ['&'] := rfl
  simp only [List.map_cons, List.map_nil, hd]
  rw [h]
  simp only [decodePairs_pair]
  rfl

theorem stringifyField_ofOptString (k : String) (ip : Option String) :
    stringifyField k (ofOptString ip) = [escape k ++ "=" ++ escape (ip.getD "")] := by
  cases ip <;> rfl

theorem stringify_explicit (secret token : String) (ip : Option String) :
    stringify [("secret", .str secret), ("response", .str token), ("remoteip", ofOptString ip)] =
      "secret=" ++ escape secret ++ "&" ++ ("response=" ++ escape token) ++ "&" ++
        ("remoteip=" ++ escape (ip.getD "")) := by
  have hs : escape "secret" = "secret" := by decide
  have hr : escape "response" = "response" := by decide
  have hi : escape "remoteip" = "remoteip" := by decide
  have h : stringify [("secret", .str secret), ("response", .str token),
      ("remoteip", ofOptString ip)] =
      "&".intercalate [escape "secret" ++ "=" ++ escape secret,
        escape "response" ++ "=" ++ escape token,
        escape "remoteip" ++ "=" ++ escape (ip.getD "")] := by
    cases ip <;> rfl
  rw [h, hs, hr, hi]
  rfl

/-- The verification URI for a string token. For every secret, every token and every caller IP
(strings, as `getUri` documents its parameters; the IP may be unavailable), `getUri` on the
fixed endpoint returns `https://www.google.com/recaptcha/api/siteverify`, then `?`, then the
query string `secret=...&response=...&remoteip=...` with the escaped values; decoding that query
string gives exactly the three parameters `secret`, `response` and `remoteip`, in that order,
with the secret, the token and the IP as values (the empty string for an unavailable IP); and
when the IP is unavailable the query string ends in `remoteip=` with nothing after it. -/
theorem getUri_carries_three_parameters (secret token : String) (ip : Option String) :
    getUri recaptchaUrl secret (.str token) (ofOptString ip) =
      "https://www.google.com/recaptcha/api/siteverify" ++ "?" ++
        ("secret=" ++ escape secret ++ "&" ++ ("response=" ++ escape token) ++ "&" ++
          ("remoteip=" ++ escape (ip.getD ""))) ∧
    decodeQuery ("secret=" ++ escape secret ++ "&" ++ ("response=" ++ escape token) ++ "&" ++
        ("remoteip=" ++ escape (ip.getD ""))) =
      some [("secret", secret), ("response", token), ("remoteip", ip.getD "")] ∧
    getUri recaptchaUrl secret (.str token) (ofOptString none) =
      "https://www.google.com/recaptcha/api/siteverify" ++ "?" ++
        ("secret=" ++ escape secret ++ "&" ++ ("response=" ++ escape token) ++ "&" ++
          "remoteip=") := by
  have hs : escape "secret" = "secret" := by decide
  have hr : escape "response" = "response" := by decide
  have hi : escape "remoteip" = "remoteip" := by decide
  refine ⟨?_, ?_, ?_⟩
  · rw [getUri, stringify_explicit]
    rfl
  · have h := decodeQuery_three "secret" secret "response" token "remoteip" (ip.getD "")
    rw [hs, hr, hi] at h
    exact h
  · rw [getUri, stringify_explicit]
    rfl

/-! ## The factory -/

theorem joiString_ok {key s : String} (h : s ≠ "") : joiString key (.str s) = .ok s := by
  simp [joiString, h]

theorem joiString_error_of_not_str (key : String) (v : JSVal) (h : ∀ s, v ≠ .str s) :
    ∃ e, joiString key v = .error e := by
  cases v with
  | str s => exact absurd rfl (h s)
  | _ => exact ⟨_, rfl⟩

/-- The validation of a record with a valid secret, a valid or missing field and no other key. -/
theorem optionsSchema_ok (value : Fields) (secret field : String)
    (hsecret : lookupField "secret" value = .str secret) (hne : secret ≠ "")
    (hfield : joiStringDefault "field" "g-recaptcha-response" (lookupField "field" value) =
      .ok field)
    (hkeys : ∀ kv ∈ value, kv.1 = "field" ∨ kv.1 = "secret") :
    optionsSchema value = .ok { field := field, secret := secret } := by
  have hfind : value.find? (fun kv => kv.1 != "field" && kv.1 != "secret") = none := by
    rw [List.find?_eq_none]
    intro kv hkv
    rcases hkeys kv hkv with h | h <;> simp [h]
  simp [optionsSchema, hfield, hsecret, joiStringRequired, joiString, hne, hfind]

/-- The middleware issues at most one verification call, with the URI built by `getUri` from
its options, the extracted token and `req.ip`. -/
theorem verifierCalls_middleware (options : Options) (env : Env) (req : Request) :
    ∀ uri ∈ verifierCalls (middleware options env req).trace,
      uri = getUri options.url options.secret (getRecaptchaResponse options.field req)
        (ofOptString req.ip) := by
  intro uri huri
  cases hb : isFalse req.recaptcha
  · cases ht : truthy (getRecaptchaResponse options.field req)
    · simp [middleware, hb, ht, verifierCalls] at huri
    · simp only [middleware, hb, ht, Bool.not_true, Bool.false_eq_true, if_false, verifierCalls,
        verifierCalls_callback, List.mem_singleton] at huri
      exact huri
  · simp [middleware, hb, verifierCalls] at huri

/-- The query string of `getUri` starts with the `secret` parameter. -/
theorem getUri_secret_first (serviceUrl secret : String) (response : JSVal)
    (ip : Option String) :
    ∃ rest, getUri serviceUrl secret response (ofOptString ip) =
      serviceUrl ++ "?" ++ ("secret=" ++ escape secret ++ "&" ++ rest) := by
  have hs : escape "secret" = "secret" := by decide
  obtain ⟨x, l, hl⟩ : ∃ x l, stringifyField "response" response ++
      stringifyField "remoteip" (ofOptString ip) = x :: l := by
    rw [stringifyField_ofOptString]
    cases stringifyField "response" response with
    | nil => exact ⟨_, _, rfl⟩
    | cons a as => exact ⟨_, _, rfl⟩
  refine ⟨"&".intercalate (x :: l), ?_⟩
  have hq : stringify [("secret", .str secret), ("response", response),
      ("remoteip", ofOptString ip)] =
      "&".intercalate (("secret=" ++ escape secret) :: x :: l) := by
    simp only [stringify, List.flatMap_cons, List.flatMap_nil, List.append_nil]
    rw [hl]
    simp only [stringifyField, stringifyPrimitive, hs, List.singleton_append]
    rfl
  rw [getUri, hq]
  congr 1
  apply String.ext
  simp only [String.intercalate, intercalate_go_data, String.data_append, List.map_cons,
    List.flatten_cons, List.append_assoc]

/-- What a successful validation tells about the secret: it is the non-empty string under
`secret`. -/
theorem optionsSchema_secret {value : Fields} {validated : ValidOptions}
    (h : optionsSchema value = .ok validated) :
    lookupField "secret" value = .str validated.secret ∧ validated.secret ≠ "" := by
  unfold optionsSchema at h
  split at h
  · cases h
  · split at h
    · cases h
    · rename_i secret hsec
      split at h
      · cases h
      · cases h
        cases hv : lookupField "secret" value with
        | str s =>
          rw [hv] at hsec
          by_cases hs : s = ""
          · simp [joiStringRequired, joiString, hs] at hsec
          · simp only [joiStringRequired, joiString, hs, if_false, Except.ok.injEq] at hsec
            exact ⟨by rw [hsec], by rw [← hsec]; exact hs⟩
        | _ => rw [hv] at hsec; simp [joiStringRequired, joiString] at hsec

/-- What a successful construction tells about the options of the middleware. -/
theorem factory_ok {value : Fields} {options : Options} (h : factory (some value) = .ok options) :
    ∃ validated, optionsSchema value = .ok validated ∧
      options = { field := validated.field
                  secret := if validated.secret = "test_secret" then testSecret
                    else validated.secret
                  url := recaptchaUrl } := by
  unfold factory at h
  simp only at h
  split at h
  · cases h
  · rename_i validated hv
    cases h
    exact ⟨validated, hv, rfl⟩

/-- C11 (secret substitution). For every middleware the factory constructs from options whose
`secret` is the string `secret`: when `secret` is `test_secret` the middleware's secret is the
fixed `6LeIxAcTAAAAAGG-vFI1TnRWxMZNFuojJ4WifJWe`, otherwise it is `secret` itself; it is never
the literal `test_secret`; and every verification call the middleware issues, for every
environment and request, goes to the URI `getUri` builds from the fixed endpoint and that
secret, which is the endpoint followed by `?secret=` and the encoding of that secret. -/
theorem secret_substitution (value : Fields) (secret : String) (options : Options) (env : Env)
    (req : Request)
    (hsecret : lookupField "secret" value = .str secret)
    (hfactory : factory (some value) = .ok options) :
    (secret = "test_secret" → options.secret = "6LeIxAcTAAAAAGG-vFI1TnRWxMZNFuojJ4WifJWe") ∧
    (secret ≠ "test_secret" → options.secret = secret) ∧
    options.secret ≠ "test_secret" ∧
    ∀ uri ∈ verifierCalls (middleware options env req).trace,
      uri = getUri recaptchaUrl options.secret (getRecaptchaResponse options.field req)
        (ofOptString req.ip) ∧
      ∃ rest, uri = "https://www.google.com/recaptcha/api/siteverify" ++ "?" ++
        ("secret=" ++ escape options.secret ++ "&" ++ rest) := by
  obtain ⟨validated, hv, hopt⟩ := factory_ok hfactory
  have hsec : validated.secret = secret := by
    have h := (optionsSchema_secret hv).1
    rw [hsecret] at h
    cases h
    rfl
  have hos : options.secret = if secret = "test_secret" then testSecret else secret := by
    rw [hopt, hsec]
  have hurl : options.url = recaptchaUrl := by rw [hopt]
  refine ⟨?_, ?_, ?_, ?_⟩
  · intro h
    rw [hos, if_pos h]
    rfl
  · intro h
    rw [hos, if_neg h]
  · rw [hos]
    split
    · decide
    · assumption
  · intro uri huri
    have h := verifierCalls_middleware options env req uri huri
    rw [hurl] at h
    refine ⟨h, ?_⟩
    rw [h]
    exact getUri_secret_first _ _ _ _

/-- The tests `should use api test secret if options.secret is set to "test_secret"` and
`should use api secret in options.secret`. -/
theorem secret_substitution_witness :
    (factory (some [("secret", .str "test_secret")]) =
        .ok { field := "g-recaptcha-response"
              secret := "6LeIxAcTAAAAAGG-vFI1TnRWxMZNFuojJ4WifJWe"
              url := recaptchaUrl } ∧
      ∀ uri ∈ verifierCalls (middleware
          { field := "g-recaptcha-response"
            secret := "6LeIxAcTAAAAAGG-vFI1TnRWxMZNFuojJ4WifJWe"
            url := recaptchaUrl }
          (sampleEnv (getResponseMock none none none))
          (sampleRequest none none (some "body") .undefined)).trace,
        ∃ rest, uri = "https://www.google.com/recaptcha/api/siteverify" ++ "?" ++
          ("secret=" ++ escape "6LeIxAcTAAAAAGG-vFI1TnRWxMZNFuojJ4WifJWe" ++ "&" ++ rest)) ∧
    (factory (some [("secret", .str "mySecret")]) = .ok sampleOptions ∧
      ∀ uri ∈ verifierCalls (middleware sampleOptions
          (sampleEnv (getResponseMock none none none))
          (sampleRequest none none (some "body") .undefined)).trace,
        ∃ rest, uri = "https://www.google.com/recaptcha/api/siteverify" ++ "?" ++
          ("secret=" ++ escape "mySecret" ++ "&" ++ rest)) :=
  ⟨⟨rfl, fun uri huri =>
      ((secret_substitution [("secret", .str "test_secret")] "test_secret" _
        (sampleEnv (getResponseMock none none none))
        (sampleRequest none none (some "body") .undefined) rfl rfl).2.2.2 uri huri).2⟩,
   ⟨rfl, fun uri huri =>
      ((secret_substitution [("secret", .str "mySecret")] "mySecret" sampleOptions
        (sampleEnv (getResponseMock none none none))
        (sampleRequest none none (some "body") .undefined) rfl rfl).2.2.2 uri huri).2⟩⟩

/-- C13 (configuration validation), where it fails as stated. The field `''` is a field that is
given, yet no middleware looks for the token under it: `Joi.string()` rejects the empty string
and the factory throws. -/
theorem factory_rejects_empty_field :
    factory (some [("secret", .str "mySecret"), ("field", .str "")]) =
      .error ⟨"ValidationError", "\"field\" is not allowed to be empty"⟩ ∧
    ¬ ∃ options, factory (some [("secret", .str "mySecret"), ("field", .str "")]) =
      .ok options := by
  have h : factory (some [("secret", .str "mySecret"), ("field", .str "")]) =
      .error ⟨"ValidationError", "\"field\" is not allowed to be empty"⟩ := rfl
  refine ⟨h, ?_⟩
  rintro ⟨options, ho⟩
  rw [h] at ho
  cases ho

/-- C13 (configuration validation), as amended. The factory throws when `options` is
`undefined`, when it has no `secret`, when `secret` is the empty string, when `secret` is not a
string, and when `field` is present and is not a string or is the empty string. For options that
hold a non-empty string `secret` and no key other than `secret` and `field`: when `field` is
omitted the factory returns the middleware whose field is `g-recaptcha-response`, and when
`field` is a non-empty string it returns the middleware whose field is exactly that string; the
middleware reads header, query and body under its field. -/
theorem factory_validation (value : Fields) :
    (∃ e, factory none = .error e) ∧
    (lookupField "secret" value = .undefined → ∃ e, factory (some value) = .error e) ∧
    (lookupField "secret" value = .str "" → ∃ e, factory (some value) = .error e) ∧
    ((∀ s, lookupField "secret" value ≠ .str s) → ∃ e, factory (some value) = .error e) ∧
    (lookupField "field" value ≠ .undefined → (∀ f, lookupField "field" value ≠ .str f) →
      ∃ e, factory (some value) = .error e) ∧
    (lookupField "field" value = .str "" → ∃ e, factory (some value) = .error e) ∧
    (∀ secret, lookupField "secret" value = .str secret → secret ≠ "" →
      (∀ kv ∈ value, kv.1 = "field" ∨ kv.1 = "secret") →
      (lookupField "field" value = .undefined →
        factory (some value) =
          .ok { field := "g-recaptcha-response"
                secret := if secret = "test_secret" then testSecret else secret
                url := recaptchaUrl }) ∧
      (∀ field, lookupField "field" value = .str field → field ≠ "" →
        factory (some value) =
          .ok { field := field
                secret := if secret = "test_secret" then testSecret else secret
                url := recaptchaUrl })) ∧
    (∀ (options : Options) (req : Request), getRecaptchaResponse options.field req =
      jsOr (jsOr (ofOptString (req.get options.field)) (guardedField req.query options.field))
        (guardedField req.body options.field)) := by
  have hfail : ∀ e, optionsSchema value = .error e → ∃ e, factory (some value) = .error e := by
    intro e he
    exact ⟨e, by simp [factory, he]⟩
  have hsecfail : ∀ e, joiStringRequired "secret" (lookupField "secret" value) = .error e →
      ∃ e, factory (some value) = .error e := by
    intro e he
    cases hf : joiStringDefault "field" "g-recaptcha-response" (lookupField "field" value) with
    | error e2 => exact hfail e2 (by simp [optionsSchema, hf])
    | ok field => exact hfail e (by simp [optionsSchema, hf, he])
  have hfieldfail : ∀ e, joiStringDefault "field" "g-recaptcha-response"
      (lookupField "field" value) = .error e → ∃ e, factory (some value) = .error e := by
    intro e he
    exact hfail e (by simp [optionsSchema, he])
  refine ⟨⟨_, rfl⟩, ?_, ?_, ?_, ?_, ?_, ?_, fun _ _ => rfl⟩
  · intro h
    exact hsecfail _ (by rw [h]; rfl)
  · intro h
    exact hsecfail _ (by rw [h]; rfl)
  · intro h
    cases hv : lookupField "secret" value with
    | str s => exact absurd hv (h s)
    | undefined => exact hsecfail _ (by rw [hv]; rfl)
    | null => exact hsecfail _ (by rw [hv]; rfl)
    | bool b => exact hsecfail _ (by rw [hv]; rfl)
    | num n => exact hsecfail _ (by rw [hv]; rfl)
    | arr xs => exact hsecfail _ (by rw [hv]; rfl)
    | obj fs => exact hsecfail _ (by rw [hv]; rfl)
    | inherited name => exact hsecfail _ (by rw [hv]; rfl)
  · intro hu h
    cases hv : lookupField "field" value with
    | str s => exact absurd hv (h s)
    | undefined => exact absurd hv hu
    | null => exact hfieldfail _ (by rw [hv]; rfl)
    | bool b => exact hfieldfail _ (by rw [hv]; rfl)
    | num n => exact hfieldfail _ (by rw [hv]; rfl)
    | arr xs => exact hfieldfail _ (by rw [hv]; rfl)
    | obj fs => exact hfieldfail _ (by rw [hv]; rfl)
    | inherited name => exact hfieldfail _ (by rw [hv]; rfl)
  · intro h
    exact hfieldfail _ (by rw [h]; rfl)
  · intro secret hsecret hne hkeys
    constructor
    · intro hfield
      have hs := optionsSchema_ok value secret "g-recaptcha-response" hsecret hne
        (by rw [hfield]; rfl) hkeys
      simp [factory, hs]
    · intro field hfield hfne
      have hs := optionsSchema_ok value secret field hsecret hne
        (by rw [hfield]; simp [joiStringDefault, joiString, hfne]) hkeys
      simp [factory, hs]

/-- The factory on the options of the test suite and on options with a field of their own, and
its failures on options without secret, with an empty secret, with a secret or a field that is
not a string, and with an empty field. -/
theorem factory_validation_witness :
    factory (some [("secret", .str "mySecret")]) =
      .ok { field := "g-recaptcha-response", secret := "mySecret", url := recaptchaUrl } ∧
    factory (some [("secret", .str "mySecret"), ("field", .str "token")]) =
      .ok { field := "token", secret := "mySecret", url := recaptchaUrl } ∧
    (∃ e, factory (some []) = .error e) ∧
    (∃ e, factory (some [("secret", .str "")]) = .error e) ∧
    (∃ e, factory (some [("secret", .num 7)]) = .error e) ∧
    (∃ e, factory (some [("secret", .str "mySecret"), ("field", .num 7)]) = .error e) ∧
    (∃ e, factory (some [("secret", .str "mySecret"), ("field", .str "")]) = .error e) :=
  ⟨((factory_validation [("secret", .str "mySecret")]).2.2.2.2.2.2.1 "mySecret" rfl
      (by decide) (by simp)).1 rfl,
   ((factory_validation [("secret", .str "mySecret"), ("field", .str "token")]).2.2.2.2.2.2.1
      "mySecret" rfl (by decide) (by simp)).2 "token" rfl (by decide),
   (factory_validation []).2.1 rfl,
   (factory_validation [("secret", .str "")]).2.2.1 rfl,
   (factory_validation [("secret", .num 7)]).2.2.2.1 (by simp [lookupField]),
   (factory_validation [("secret", .str "mySecret"), ("field", .num 7)]).2.2.2.2.1
      (by simp [lookupField]) (by simp [lookupField]),
   (factory_validation [("secret", .str "mySecret"), ("field", .str "")]).2.2.2.2.2.1 rfl⟩

/-! ## Inherited members and array tokens

The reads `req.query[field]` and `req.body[field]` are not restricted to own properties and
their result is not restricted to strings. -/

/-- C1 (token precedence), evaluated where it fails. The middleware of
`{ secret: 'mySecret', field: 'toString' }` on a request with no header, an empty query and the
body `{ toString: 'tok' }`: the header is absent and the query carries nothing under `toString`,
so by the precedence rule the token is the body's `tok`; but `getRecaptchaResponse` returns the
member `toString` that the empty query inherits from `Object.prototype`, and the verification
call goes out with an empty `response` instead of `tok`. -/
theorem inherited_member_precedes_body_token :
    tokenlessRequest.get "toString" = none ∧
    carriedField (some []) "toString" = .undefined ∧
    carriedField (some [("toString", .str "tok")]) "toString" = .str "tok" ∧
    tokenByPrecedence (ofOptString (tokenlessRequest.get "toString"))
      (carriedField (some []) "toString")
      (carriedField (some [("toString", .str "tok")]) "toString") = .str "tok" ∧
    getRecaptchaResponse "toString"
      { tokenlessRequest with body := some [("toString", .str "tok")] } =
        .inherited "toString" ∧
    verifierCalls (middleware toStringOptions (sampleEnv (getResponseMock none none none))
      { tokenlessRequest with body := some [("toString", .str "tok")] }).trace =
        ["https://www.google.com/recaptcha/api/siteverify?secret=mySecret&response=" ++
          "&remoteip=%3A%3A1"] :=
  ⟨rfl, rfl, rfl, rfl, rfl, by decide⟩

/-- C2 (missing token), evaluated where it fails. The factory accepts
`{ secret: 'mySecret', field: 'toString' }`; on a request that is not bypassed and carries no
token in header, query or body, the read `req.query[field]` yields the inherited member
`toString`, which is truthy: the middleware writes no 400 response, issues the verification call
with an empty `response`, and on the verifier's success reply calls `next()`. -/
theorem inherited_member_sends_no_400 :
    factory (some [("secret", .str "mySecret"), ("field", .str "toString")]) =
      .ok toStringOptions ∧
    tokenlessRequest.recaptcha ≠ .bool false ∧
    tokenlessRequest.get "toString" = none ∧
    carriedField tokenlessRequest.query "toString" = .undefined ∧
    carriedField tokenlessRequest.body "toString" = .undefined ∧
    (middleware toStringOptions (sampleEnv (getResponseMock none none none))
        tokenlessRequest).trace =
      [.request ("https://www.google.com/recaptcha/api/siteverify?secret=mySecret&response=" ++
          "&remoteip=%3A%3A1"),
        .next none] ∧
    (middleware toStringOptions (sampleEnv (getResponseMock none none none))
        tokenlessRequest).trace.any Event.isResponse = false :=
  ⟨rfl, by simp [tokenlessRequest], rfl, rfl, rfl, rfl, rfl⟩

/-- C12 (verification call construction), evaluated where it fails. The request
`GET /?g-recaptcha-response=a&g-recaptcha-response=b`, whose query holds the array `['a', 'b']`
under the field: `getRecaptchaResponse` returns the array, `getUri` is called with it, and the
URI carries four parameters, `response` twice, instead of the three with the extracted token as
the value of `response`. With the empty array as token the URI carries no `response` parameter
at all. -/
theorem array_token_repeats_response :
    getRecaptchaResponse "g-recaptcha-response"
      { tokenlessRequest with
        query := some [("g-recaptcha-response", .arr [.str "a", .str "b"])] } =
        .arr [.str "a", .str "b"] ∧
    verifierCalls (middleware sampleOptions (sampleEnv (getResponseMock none none none))
      { tokenlessRequest with
        query := some [("g-recaptcha-response", .arr [.str "a", .str "b"])] }).trace =
        ["https://www.google.com/recaptcha/api/siteverify?secret=mySecret&response=a" ++
          "&response=b&remoteip=%3A%3A1"] ∧
    getUri recaptchaUrl "mySecret" (.arr [.str "a", .str "b"]) (.str "::1") =
      "https://www.google.com/recaptcha/api/siteverify?secret=mySecret&response=a" ++
        "&response=b&remoteip=%3A%3A1" ∧
    decodeQuery "secret=mySecret&response=a&response=b&remoteip=%3A%3A1" =
      some [("secret", "mySecret"), ("response", "a"), ("response", "b"),
        ("remoteip", "::1")] ∧
    getUri recaptchaUrl "mySecret" (.arr []) (.str "::1") =
      "https://www.google.com/recaptcha/api/siteverify?secret=mySecret&remoteip=%3A%3A1" ∧
    decodeQuery "secret=mySecret&remoteip=%3A%3A1" =
      some [("secret", "mySecret"), ("remoteip", "::1")] :=
  ⟨rfl, by decide, by decide, by decide, by decide, by decide⟩

end RecaptchaRest
